import Mathlib

/-!
Verification of the slope-aware grid pathfinder and terrain generator.

This file shallowly embeds the two algorithmic source files of the
repository:

* the `PathfindingEngine` class (A* search over a heightfield with a
  slope-based cost model, plus slope analysis and path smoothing), and
* the `TerrainLoader` class (procedural multi-octave Perlin terrain
  generation and raw height-array post-processing).

JavaScript numbers are modelled as real numbers (`ℝ`); the `Infinity`
sentinel used for `gScore` initialisation and for impassable movement
costs is modelled with `Option ℝ` (`none` = infinite); typed arrays
indexed by `y*width+x` are modelled as total functions `ℕ → _` updated
with `Function.update`.  Wall-clock fields (`executionTime`) are not
modelled.  The `parent` field of the source's `PathNode` is written but
never read (path reconstruction uses the `cameFrom` array), so it is
omitted from the embedding.
-/

noncomputable section

/-- Grid coordinate pair, mirroring the source's `Point` interface.
Coordinates are integers (arbitrary JS numbers are accepted by
`findPath`, which bounds-checks them). -/
structure Point where
  x : ℤ
  y : ℤ
deriving DecidableEq

instance : Inhabited Point := ⟨⟨0, 0⟩⟩

/-- Search node stored in the frontier heap (source interface `PathNode`,
minus the write-only `parent` back-reference). -/
structure PathNode where
  x : ℤ
  y : ℤ
  g : ℝ
  h : ℝ
  f : ℝ

instance : Inhabited PathNode := ⟨⟨0, 0, 0, 0, 0⟩⟩

/-- The engine's effective options (source `Required<PathfindingOptions>`). -/
structure PathfindingOptions where
  maxSlope : ℝ
  diagonalMovement : Bool
  slopeWeight : ℝ
  distanceWeight : ℝ

/-- Heightfield record produced by `TerrainLoader` (source `HeightData`). -/
structure HeightData where
  width : ℕ
  height : ℕ
  data : List (List ℝ)
  minHeight : ℝ
  maxHeight : ℝ

/-- Result record of `findPath` (source `PathfindingResult`, minus the
wall-clock `executionTime` field). -/
structure PathfindingResult where
  path : List Point
  cost : ℝ
  success : Bool
  nodesExplored : ℕ

/-- Elevation lookup `heightData.data[y][x]` (in-bounds accesses only are
ever performed by the engine). -/
def elev (hd : HeightData) (pt : Point) : ℝ :=
  (hd.data.getD pt.y.toNat []).getD pt.x.toNat 0

/-- Source `getDistance`: Euclidean distance between two points. -/
def getDistance (a b : Point) : ℝ :=
  Real.sqrt ((((b.x - a.x : ℤ) : ℝ)) * ((b.x - a.x : ℤ) : ℝ) +
    (((b.y - a.y : ℤ) : ℝ)) * ((b.y - a.y : ℤ) : ℝ))

/-- Source `calculateSlope`: signed slope in degrees between two cells
(the source deliberately uses the signed height difference
`heightTo - heightFrom`). -/
def calculateSlope (hd : HeightData) (a b : Point) : ℝ :=
  Real.arctan ((elev hd b - elev hd a) / getDistance a b) * (180 / Real.pi)

/-- Source `getMovementCost`: `none` models the `Infinity` return for
too-steep edges (callers test `isFinite`). -/
def getMovementCost (hd : HeightData) (opts : PathfindingOptions) (a b : Point) :
    Option ℝ :=
  if calculateSlope hd a b > opts.maxSlope then none
  else some (getDistance a b * opts.distanceWeight +
    calculateSlope hd a b / opts.maxSlope * opts.slopeWeight)

/-- Source `heuristic`: Euclidean distance to goal scaled by the distance
weight. -/
def heuristic (opts : PathfindingOptions) (a b : Point) : ℝ :=
  getDistance a b * opts.distanceWeight

/-- Source `isValidPoint`: bounds check. -/
def isValidPoint (hd : HeightData) (pt : Point) : Prop :=
  0 ≤ pt.x ∧ pt.x < (hd.width : ℤ) ∧ 0 ≤ pt.y ∧ pt.y < (hd.height : ℤ)

instance (hd : HeightData) (pt : Point) : Decidable (isValidPoint hd pt) := by
  unfold isValidPoint; infer_instance

/-- Linear cell index `y*width+x` used for all per-cell bookkeeping arrays. -/
def idxOf (width : ℕ) (x y : ℤ) : ℕ := (y * width + x).toNat

/-- The heap's comparison function `(a, b) => a.f - b.f`; all call sites
test `compare(..) < 0`. -/
def heapCompare (a b : PathNode) : ℝ := a.f - b.f

/-- Source `MinHeap.bubbleUp`. -/
def bubbleUp (l : List PathNode) (idx : ℕ) : List PathNode :=
  if h0 : 0 < idx then
    let parent := (idx - 1) / 2
    if heapCompare (l.getD idx default) (l.getD parent default) < 0 then
      bubbleUp ((l.set idx (l.getD parent default)).set parent (l.getD idx default))
        parent
    else l
  else l
termination_by idx
decreasing_by exact Nat.lt_of_le_of_lt (Nat.div_le_self _ _) (Nat.sub_lt h0 one_pos)

/-- Source `MinHeap.push`. -/
def heapPush (l : List PathNode) (item : PathNode) : List PathNode :=
  bubbleUp (l ++ [item]) l.length

/-- Body of the source `MinHeap.bubbleDown` `while(true)` loop.  The loop
is modelled with fuel `l.length`, which covers every run: the index
strictly increases and stays below the (constant) list length. -/
def bubbleDownAux : ℕ → List PathNode → ℕ → List PathNode
  | 0, l, _ => l
  | fuel + 1, l, idx =>
    let left := 2 * idx + 1
    let right := 2 * idx + 2
    let s1 : ℕ :=
      if left < l.length ∧ heapCompare (l.getD left default) (l.getD idx default) < 0
      then left else idx
    let s2 : ℕ :=
      if right < l.length ∧ heapCompare (l.getD right default) (l.getD s1 default) < 0
      then right else s1
    if s2 ≠ idx then
      bubbleDownAux fuel ((l.set idx (l.getD s2 default)).set s2 (l.getD idx default)) s2
    else l

/-- Source `MinHeap.bubbleDown`. -/
def bubbleDown (l : List PathNode) (idx : ℕ) : List PathNode :=
  bubbleDownAux l.length l idx

/-- Source `MinHeap.pop`: returns the root and the remaining heap
(`undefined` on an empty heap becomes `none`). -/
def heapPop (l : List PathNode) : Option (PathNode × List PathNode) :=
  match l with
  | [] => none
  | top :: tail =>
    let rest := (top :: tail).dropLast
    some (top,
      if 0 < rest.length then
        bubbleDown (rest.set 0 ((top :: tail).getLast?.getD default)) 0
      else rest)

/-- Source `MinHeap.decreaseIfBetter`: silently no-ops when no entry
matches the predicate. -/
def decreaseIfBetter (l : List PathNode) (matcher : PathNode → Bool)
    (update : PathNode → PathNode) : List PathNode :=
  match l.findIdx? matcher with
  | none => l
  | some idx => bubbleUp (l.set idx (update (l.getD idx default))) idx

/-- The JS comparison `tentativeG >= gScore[nIdx]` where `gScore` holds
`Infinity` (`none`) until a cell is first relaxed. -/
def geOpt (t : ℝ) (o : Option ℝ) : Prop :=
  match o with
  | none => False
  | some g => g ≤ t

instance : (t : ℝ) → (o : Option ℝ) → Decidable (geOpt t o)
  | _, none => isFalse (fun h => h)
  | t, some g => inferInstanceAs (Decidable (g ≤ t))

/-- Neighbor offsets explored from each popped node, in source order. -/
def dirs (diagonalMovement : Bool) : List (ℤ × ℤ) :=
  [(0, -1), (1, 0), (0, 1), (-1, 0)] ++
    (if diagonalMovement then [(-1, -1), (1, -1), (1, 1), (-1, 1)] else [])

/-- Mutable per-search state of `findPath` (frontier heap plus the
per-cell `gScore` / `cameFrom` / `closed` / `inOpen` arrays). -/
structure SearchState where
  heap : List PathNode
  gScore : ℕ → Option ℝ
  cameFrom : ℕ → Option ℕ
  closed : ℕ → Bool
  inOpen : ℕ → Bool

/-- Body of the neighbor-exploration loop of `findPath` for one
direction. -/
def processNeighbor (hd : HeightData) (opts : PathfindingOptions) (goal : Point)
    (current : PathNode) (cIdx : ℕ) (st : SearchState) (d : ℤ × ℤ) : SearchState :=
  let nx := current.x + d.1
  let ny := current.y + d.2
  if nx < 0 ∨ (hd.width : ℤ) ≤ nx ∨ ny < 0 ∨ (hd.height : ℤ) ≤ ny then st
  else
    let nIdx := idxOf hd.width nx ny
    if st.closed nIdx then st
    else
      match getMovementCost hd opts ⟨current.x, current.y⟩ ⟨nx, ny⟩ with
      | none => st
      | some moveCost =>
        let tentativeG := current.g + moveCost
        if geOpt tentativeG (st.gScore nIdx) then st
        else
          let h := heuristic opts ⟨nx, ny⟩ goal
          let f := tentativeG + h
          if st.inOpen nIdx then
            { st with
              cameFrom := Function.update st.cameFrom nIdx (some cIdx)
              gScore := Function.update st.gScore nIdx (some tentativeG)
              heap := decreaseIfBetter st.heap
                (fun n => n.x == nx && n.y == ny)
                (fun n => { n with g := tentativeG, h := h, f := f }) }
          else
            { st with
              cameFrom := Function.update st.cameFrom nIdx (some cIdx)
              gScore := Function.update st.gScore nIdx (some tentativeG)
              heap := heapPush st.heap ⟨nx, ny, tentativeG, h, f⟩
              inOpen := Function.update st.inOpen nIdx true }

/-- Path reconstruction: walk `cameFrom` from the goal index, prepending
cells, until the `-1` sentinel (`none`).  The source's unbounded `while`
loop is modelled with fuel; `findPath` supplies fuel `width*height+1`,
which covers every chain of distinct cells. -/
def reconAux (cameFrom : ℕ → Option ℕ) (width : ℕ) :
    ℕ → ℕ → List Point → List Point
  | 0, _, acc => acc
  | fuel + 1, idx, acc =>
    let pt : Point := ⟨(idx % width : ℕ), (idx / width : ℕ)⟩
    match cameFrom idx with
    | none => pt :: acc
    | some j => reconAux cameFrom width fuel j (pt :: acc)

/-- The main A* loop of `findPath`.  The source's `while (!heap.isEmpty())`
loop is modelled with fuel; `findPath` supplies fuel `width*height+1`,
which suffices because every iteration closes a previously unclosed cell
(cells are pushed at most once).  The fuel-exhaustion branch returns the
same record as frontier exhaustion. -/
def findPathLoop (hd : HeightData) (opts : PathfindingOptions) (goal : Point) :
    ℕ → SearchState → ℕ → PathfindingResult
  | 0, _, nodesExplored => ⟨[], 0, false, nodesExplored⟩
  | fuel + 1, st, nodesExplored =>
    match heapPop st.heap with
    | none => ⟨[], 0, false, nodesExplored⟩
    | some (current, heap1) =>
      let cIdx := idxOf hd.width current.x current.y
      let st1 : SearchState :=
        { st with
          heap := heap1
          inOpen := Function.update st.inOpen cIdx false
          closed := Function.update st.closed cIdx true }
      if current.x = goal.x ∧ current.y = goal.y then
        ⟨reconAux st1.cameFrom hd.width (hd.width * hd.height + 1) cIdx [],
          current.g, true, nodesExplored + 1⟩
      else
        findPathLoop hd opts goal fuel
          ((dirs opts.diagonalMovement).foldl
            (processNeighbor hd opts goal current cIdx) st1)
          (nodesExplored + 1)

/-- Source `findPath`: A* from `start` to `goal` over the bound
heightfield. -/
def findPath (hd : HeightData) (opts : PathfindingOptions) (start goal : Point) :
    PathfindingResult :=
  if ¬ isValidPoint hd start ∨ ¬ isValidPoint hd goal then ⟨[], 0, false, 0⟩
  else
    let startIdx := idxOf hd.width start.x start.y
    let h0 := heuristic opts start goal
    let startNode : PathNode := ⟨start.x, start.y, 0, h0, 0 + h0⟩
    let st0 : SearchState :=
      { heap := heapPush [] startNode
        gScore := Function.update (fun _ => none) startIdx (some 0)
        cameFrom := fun _ => none
        closed := fun _ => false
        inOpen := Function.update (fun _ => false) startIdx true }
    findPathLoop hd opts goal (hd.width * hd.height + 1) st0 0

/-- Neighbor offsets inspected by `getSlopeAt`, in source order. -/
def slopeDirections : List (ℤ × ℤ) :=
  [(-1, 0), (1, 0), (0, -1), (0, 1), (-1, -1), (1, -1), (-1, 1), (1, 1)]

/-- Source `getSlopeAt`: maximum absolute slope (degrees) from a cell to
its in-bounds neighbors; `0` for an out-of-bounds query. -/
def getSlopeAt (hd : HeightData) (pt : Point) : ℝ :=
  if ¬ isValidPoint hd pt then 0
  else
    slopeDirections.foldl
      (fun acc d =>
        let nX := pt.x + d.1
        let nY := pt.y + d.2
        if 0 ≤ nX ∧ nX < (hd.width : ℤ) ∧ 0 ≤ nY ∧ nY < (hd.height : ℤ) then
          max acc (Real.arctan (|elev hd pt - elev hd ⟨nX, nY⟩| /
            Real.sqrt (((d.1 : ℝ)) * (d.1 : ℝ) + ((d.2 : ℝ)) * (d.2 : ℝ))) *
            (180 / Real.pi))
        else acc)
      0

/-- Source `hasDirectLineOfSight`: every interior sample (unit steps,
rounded to the nearest cell) of the segment must be in bounds with
`getSlopeAt` not exceeding `maxSlope`. -/
def hasDirectLineOfSight (hd : HeightData) (opts : PathfindingOptions)
    (a b : Point) : Prop :=
  ∀ i ∈ List.range' 1 (⌈getDistance a b⌉₊ - 1),
    let t : ℝ := (i : ℝ) / (⌈getDistance a b⌉₊ : ℝ)
    let x : ℤ := round ((a.x : ℝ) + ((b.x : ℝ) - (a.x : ℝ)) * t)
    let y : ℤ := round ((a.y : ℝ) + ((b.y : ℝ) - (a.y : ℝ)) * t)
    isValidPoint hd ⟨x, y⟩ ∧ ¬ getSlopeAt hd ⟨x, y⟩ > opts.maxSlope

instance (hd : HeightData) (opts : PathfindingOptions) (a b : Point) :
    Decidable (hasDirectLineOfSight hd opts a b) := by
  unfold hasDirectLineOfSight; infer_instance

/-- Source `smoothPath`: drop each interior waypoint whose two original
neighbors have direct line of sight; first and last waypoints are always
kept. -/
def smoothPath (hd : HeightData) (opts : PathfindingOptions)
    (path : List Point) : List Point :=
  if path.length ≤ 2 then path
  else
    ((List.range' 1 (path.length - 2)).foldl
      (fun acc i =>
        if ¬ hasDirectLineOfSight hd opts (path.getD (i - 1) default)
            (path.getD (i + 1) default)
        then acc ++ [path.getD i default] else acc)
      [path.getD 0 default]) ++ [path.getD (path.length - 1) default]


/-! ## TerrainLoader: procedural terrain generation and height-array
processing (`terrainLoader.ts`) -/

/-- Options record consumed by `processHeightArray` (source
`LoadOptions`, with the destructuring defaults already applied). -/
structure LoadOptions where
  normalize : Bool := true
  scale : ℝ := 1
  offset : ℝ := 0

/-- Options record consumed by `generateProceduralTerrain` (the source's
`LoadOptions & {noiseScale, octaves, persistence, lacunarity}`, with the
destructuring defaults already applied). -/
structure GenOptions where
  noiseScale : ℝ := 0.1
  octaves : ℕ := 4
  persistence : ℝ := 0.5
  lacunarity : ℝ := 2
  normalize : Bool := true
  scale : ℝ := 1
  offset : ℝ := 0

/-- The Perlin permutation table (source field `p`: 256 entries listed
twice to avoid index wrapping). -/
def p : List ℕ :=
  [151, 160, 137, 91, 90, 15, 131, 13, 201, 95, 96, 53, 194, 233, 7, 225, 140, 36, 103, 30, 69, 142,
    8, 99, 37, 240, 21, 10, 23, 190, 6, 148, 247, 120, 234, 75, 0, 26, 197, 62, 94, 252, 219, 203,
    117, 35, 11, 32, 57, 177, 33, 88, 237, 149, 56, 87, 174, 20, 125, 136, 171, 168, 68, 175, 74, 165,
    71, 134, 139, 48, 27, 166, 77, 146, 158, 231, 83, 111, 229, 122, 60, 211, 133, 230, 220, 105, 92, 41,
    55, 46, 245, 40, 244, 102, 143, 54, 65, 25, 63, 161, 1, 216, 80, 73, 209, 76, 132, 187, 208, 89,
    18, 169, 200, 196, 135, 130, 116, 188, 159, 86, 164, 100, 109, 198, 173, 186, 3, 64, 52, 217, 226, 250,
    124, 123, 5, 202, 38, 147, 118, 126, 255, 82, 85, 212, 207, 206, 59, 227, 47, 16, 58, 17, 182, 189,
    28, 42, 223, 183, 170, 213, 119, 248, 152, 2, 44, 154, 163, 70, 221, 153, 101, 155, 167, 43, 172, 9,
    129, 22, 39, 253, 19, 98, 108, 110, 79, 113, 224, 232, 178, 185, 112, 104, 218, 246, 97, 228, 251, 34,
    242, 193, 238, 210, 144, 12, 191, 179, 162, 241, 81, 51, 145, 235, 249, 14, 239, 107, 49, 192, 214, 31,
    181, 199, 106, 157, 184, 84, 204, 176, 115, 121, 50, 45, 127, 4, 150, 254, 138, 236, 205, 93, 222, 114,
    67, 29, 24, 72, 243, 141, 128, 195, 78, 66, 215, 61, 156, 180, 151, 160, 137, 91, 90, 15, 131, 13,
    201, 95, 96, 53, 194, 233, 7, 225, 140, 36, 103, 30, 69, 142, 8, 99, 37, 240, 21, 10, 23, 190,
    6, 148, 247, 120, 234, 75, 0, 26, 197, 62, 94, 252, 219, 203, 117, 35, 11, 32, 57, 177, 33, 88,
    237, 149, 56, 87, 174, 20, 125, 136, 171, 168, 68, 175, 74, 165, 71, 134, 139, 48, 27, 166, 77, 146,
    158, 231, 83, 111, 229, 122, 60, 211, 133, 230, 220, 105, 92, 41, 55, 46, 245, 40, 244, 102, 143, 54,
    65, 25, 63, 161, 1, 216, 80, 73, 209, 76, 132, 187, 208, 89, 18, 169, 200, 196, 135, 130, 116, 188,
    159, 86, 164, 100, 109, 198, 173, 186, 3, 64, 52, 217, 226, 250, 124, 123, 5, 202, 38, 147, 118, 126,
    255, 82, 85, 212, 207, 206, 59, 227, 47, 16, 58, 17, 182, 189, 28, 42, 223, 183, 170, 213, 119, 248,
    152, 2, 44, 154, 163, 70, 221, 153, 101, 155, 167, 43, 172, 9, 129, 22, 39, 253, 19, 98, 108, 110,
    79, 113, 224, 232, 178, 185, 112, 104, 218, 246, 97, 228, 251, 34, 242, 193, 238, 210, 144, 12, 191, 179,
    162, 241, 81, 51, 145, 235, 249, 14, 239, 107, 49, 192, 214, 31, 181, 199, 106, 157, 184, 84, 204, 176,
    115, 121, 50, 45, 127, 4, 150, 254, 138, 236, 205, 93, 222, 114, 67, 29, 24, 72, 243, 141, 128, 195,
    78, 66, 215, 61, 156, 180]

/-- Source `fade`: smoothstep-style interpolation weight. -/
def fade (t : ℝ) : ℝ := t * t * t * (t * (t * 6 - 15) + 10)

/-- Source `lerp`: linear interpolation. -/
def lerp (t a b : ℝ) : ℝ := a + t * (b - a)

/-- Source `grad`: gradient selection from the low 4 bits of a hash. -/
def grad (hash : ℕ) (x y : ℝ) : ℝ :=
  let h := hash &&& 15
  let u := if h < 8 then x else y
  let v := if h < 4 then y else if h = 12 ∨ h = 14 then x else 0
  (if h &&& 1 = 0 then u else -u) + (if h &&& 2 = 0 then v else -v)

/-- Source `noise`: classic 2D Perlin gradient noise.  The JS bitwise
`& 255` on the floored (int32) coordinate is the mathematical mod 256. -/
def noise (x y : ℝ) : ℝ :=
  let X : ℕ := (⌊x⌋ % 256).toNat
  let Y : ℕ := (⌊y⌋ % 256).toNat
  let xf := x - ⌊x⌋
  let yf := y - ⌊y⌋
  let u := fade xf
  let v := fade yf
  let A := p.getD X 0 + Y
  let AA := p.getD A 0
  let AB := p.getD (A + 1) 0
  let B := p.getD (X + 1) 0 + Y
  let BA := p.getD B 0
  let BB := p.getD (B + 1) 0
  lerp v
    (lerp u (grad AA xf yf) (grad BA (xf - 1) yf))
    (lerp u (grad AB xf (yf - 1)) (grad BB (xf - 1) (yf - 1)))

/-- Source `perlinNoise` (delegates to `noise`). -/
def perlinNoise (x y : ℝ) : ℝ := noise x y

/-- One `Math.min` step of the extrema scan of `processHeightArray`. -/
def minStep (a : EReal) (v : ℝ) : EReal := min a ↑v

/-- One `Math.max` step of the extrema scan of `processHeightArray`. -/
def maxStep (a : EReal) (v : ℝ) : EReal := max a ↑v

/-- The raw minimum computed by `processHeightArray` (running `Math.min`
from `+Infinity`, modelled in `EReal`). -/
def rawMin (rawData : List (List ℝ)) : EReal :=
  rawData.foldl (fun acc row => row.foldl minStep acc) ⊤

/-- The raw maximum computed by `processHeightArray` (running `Math.max`
from `-Infinity`, modelled in `EReal`). -/
def rawMax (rawData : List (List ℝ)) : EReal :=
  rawData.foldl (fun acc row => row.foldl maxStep acc) ⊥

/-- The per-sample transformation applied by `processHeightArray`. -/
def processValue (rawData : List (List ℝ)) (options : LoadOptions) (v : ℝ) : ℝ :=
  (if options.normalize ∧ rawMin rawData < rawMax rawData then
    (v - (rawMin rawData).toReal) / ((rawMax rawData).toReal - (rawMin rawData).toReal)
  else v) * options.scale + options.offset

/-- Source `processHeightArray`: computes raw extrema, optionally
normalizes every sample to `[0,1]` when the raw range is positive, then
applies `scale`/`offset`; records post-processing extrema. -/
def processHeightArray (rawData : List (List ℝ)) (options : LoadOptions) :
    HeightData :=
  { width := (rawData.getD 0 []).length
    height := rawData.length
    data := rawData.map (fun row => row.map (processValue rawData options))
    minHeight := if options.normalize then 0
      else (rawMin rawData).toReal * options.scale + options.offset
    maxHeight := if options.normalize then options.scale + options.offset
      else (rawMax rawData).toReal * options.scale + options.offset }

/-- The raw noise grid built by `generateProceduralTerrain` before
post-processing: per cell, `octaves` layers of Perlin noise at doubling
frequency (`lacunarity`) and decaying amplitude (`persistence`), then
`* scale + offset`. -/
def genRawGrid (width height : ℕ) (options : GenOptions) : List (List ℝ) :=
  (List.range height).map (fun (y : ℕ) =>
    (List.range width).map (fun (x : ℕ) =>
      let acc := (List.range options.octaves).foldl
        (fun (s : ℝ × ℝ × ℝ) _ =>
          let sampleX := (x : ℝ) * s.2.2 * options.noiseScale
          let sampleY := (y : ℝ) * s.2.2 * options.noiseScale
          (s.1 + perlinNoise sampleX sampleY * s.2.1,
            s.2.1 * options.persistence, s.2.2 * options.lacunarity))
        (0, 1, 1)
      acc.1 * options.scale + options.offset))

/-- Source `generateProceduralTerrain`: multi-octave Perlin noise per
cell, scaled and offset, then handed to `processHeightArray` with only
`{ normalize }` (so the inner scale/offset are the defaults `1`/`0`). -/
def generateProceduralTerrain (width height : ℕ) (options : GenOptions) :
    HeightData :=
  processHeightArray (genRawGrid width height options)
    { normalize := options.normalize, scale := 1, offset := 0 }

/-! ## Spec-side definitions used for refinement comparisons.

These mirror the specification text (notably its absolute-value slope),
to be compared against the engine definitions above. -/

/-- Modelled from the spec: `slopeBetween(from,to) =
atan(|elevation(to)-elevation(from)| / planarDistance)*180/π`. -/
def specSlopeBetween (hd : HeightData) (a b : Point) : ℝ :=
  Real.arctan (|elev hd b - elev hd a| / getDistance a b) * (180 / Real.pi)

/-- Modelled from the spec: per-edge traversal cost; `none` when the
spec slope exceeds `maxSlopeDegrees` (impassable). -/
def specEdgeCost (hd : HeightData) (opts : PathfindingOptions) (a b : Point) :
    Option ℝ :=
  if specSlopeBetween hd a b > opts.maxSlope then none
  else some (getDistance a b * opts.distanceWeight +
    specSlopeBetween hd a b / opts.maxSlope * opts.slopeWeight)

/-- One legal move of the search: an offset from the configured
direction set landing in bounds. -/
def isStep (hd : HeightData) (opts : PathfindingOptions) (a b : Point) : Prop :=
  (b.x - a.x, b.y - a.y) ∈ dirs opts.diagonalMovement ∧ isValidPoint hd b

/-- A start-to-goal walk over the grid along configured directions. -/
def isGridPath (hd : HeightData) (opts : PathfindingOptions)
    (start goal : Point) (pth : List Point) : Prop :=
  pth.head? = some start ∧ pth.getLast? = some goal ∧
    isValidPoint hd start ∧ List.Chain' (isStep hd opts) pth

/-- A grid path all of whose edges the SPEC cost model declares
passable (absolute slope at most `maxSlopeDegrees`). -/
def isSpecValidPath (hd : HeightData) (opts : PathfindingOptions)
    (start goal : Point) (pth : List Point) : Prop :=
  isGridPath hd opts start goal pth ∧
    List.Chain' (fun a b => ¬ specSlopeBetween hd a b > opts.maxSlope) pth

/-- Total spec cost of a path (sum of the spec's per-edge formula). -/
def specPathCost (hd : HeightData) (opts : PathfindingOptions) :
    List Point → ℝ
  | [] => 0
  | [_] => 0
  | a :: b :: rest =>
    (getDistance a b * opts.distanceWeight +
      specSlopeBetween hd a b / opts.maxSlope * opts.slopeWeight) +
      specPathCost hd opts (b :: rest)

/-- A grid path all of whose edges the CODE cost model declares passable
(signed slope at most `maxSlope`). -/
def isCodeValidPath (hd : HeightData) (opts : PathfindingOptions)
    (start goal : Point) (pth : List Point) : Prop :=
  isGridPath hd opts start goal pth ∧
    List.Chain' (fun a b => ¬ calculateSlope hd a b > opts.maxSlope) pth

/-- The code's finite per-edge cost (the value wrapped by
`getMovementCost` on passable edges). -/
def codeEdgeCost (hd : HeightData) (opts : PathfindingOptions) (a b : Point) : ℝ :=
  getDistance a b * opts.distanceWeight +
    calculateSlope hd a b / opts.maxSlope * opts.slopeWeight

/-- Total code cost of a path (sum of the code's per-edge formula). -/
def codePathCost (hd : HeightData) (opts : PathfindingOptions) :
    List Point → ℝ
  | [] => 0
  | [_] => 0
  | a :: b :: rest =>
    codeEdgeCost hd opts a b + codePathCost hd opts (b :: rest)


/-! ## Concrete instances used by counterexamples and witnesses -/

/-- A 2-wide, 1-tall heightfield with elevations `[1, 0]`: the single
horizontal edge descends steeply (45 degrees). -/
def hd2 : HeightData :=
  { width := 2, height := 1, data := [[1, 0]], minHeight := 0, maxHeight := 1 }

/-- The engine's default options: `maxSlope = 30`, diagonal movement,
`slopeWeight = 2`, `distanceWeight = 1`. -/
def opts30 : PathfindingOptions :=
  { maxSlope := 30, diagonalMovement := true, slopeWeight := 2, distanceWeight := 1 }

/-! ## Basic evaluation lemmas -/

theorem getDistance_eval (a b : Point) :
    getDistance a b = Real.sqrt ((((b.x - a.x : ℤ) : ℝ)) ^ 2 + (((b.y - a.y : ℤ) : ℝ)) ^ 2) := by
  unfold getDistance; ring_nf

theorem getDistance_comm (a b : Point) : getDistance a b = getDistance b a := by
  unfold getDistance
  push_cast
  ring_nf

theorem elev_hd2_00 : elev hd2 ⟨0, 0⟩ = 1 := by simp [elev, hd2]

theorem elev_hd2_10 : elev hd2 ⟨1, 0⟩ = 0 := by simp [elev, hd2]

theorem getDistance_hd2 : getDistance ⟨0, 0⟩ ⟨1, 0⟩ = 1 := by
  unfold getDistance
  norm_num

theorem calculateSlope_hd2 : calculateSlope hd2 ⟨0, 0⟩ ⟨1, 0⟩ = -45 := by
  unfold calculateSlope
  rw [elev_hd2_00, elev_hd2_10, getDistance_hd2]
  rw [show ((0 : ℝ) - 1) / 1 = -1 by norm_num, Real.arctan_neg, Real.arctan_one]
  field_simp
  ring

theorem calculateSlope_hd2_rev : calculateSlope hd2 ⟨1, 0⟩ ⟨0, 0⟩ = 45 := by
  unfold calculateSlope
  rw [elev_hd2_00, elev_hd2_10]
  rw [show getDistance ⟨1, 0⟩ ⟨0, 0⟩ = 1 by unfold getDistance; norm_num]
  rw [show ((1 : ℝ) - 0) / 1 = 1 by norm_num, Real.arctan_one]
  field_simp
  ring

theorem specSlopeBetween_hd2 : specSlopeBetween hd2 ⟨0, 0⟩ ⟨1, 0⟩ = 45 := by
  unfold specSlopeBetween
  rw [elev_hd2_00, elev_hd2_10, getDistance_hd2]
  rw [show |(0 : ℝ) - 1| / 1 = 1 by norm_num, Real.arctan_one]
  field_simp
  ring

/-! ## Claim C2: slope symmetry -/

/-- C2 counterexample: on `hd2` the slope from `(0,0)` to `(1,0)` is
`-45` degrees while the reverse slope is `+45` degrees, so
`calculateSlope` is NOT symmetric in its two cell arguments. -/
theorem c2_counterexample :
    calculateSlope hd2 ⟨0, 0⟩ ⟨1, 0⟩ ≠ calculateSlope hd2 ⟨1, 0⟩ ⟨0, 0⟩ := by
  rw [calculateSlope_hd2, calculateSlope_hd2_rev]
  norm_num

/-- C2 amended: the slope between adjacent cells is ANTIsymmetric: the
source uses the signed height difference, so reversing the direction
negates the slope. -/
theorem c2_slope_antisymm (hd : HeightData) (a b : Point)
    (hadj : (b.x - a.x, b.y - a.y) ∈ dirs true) :
    calculateSlope hd a b = -calculateSlope hd b a := by
  unfold calculateSlope
  rw [getDistance_comm a b]
  rw [show elev hd b - elev hd a = -(elev hd a - elev hd b) by ring, neg_div,
    Real.arctan_neg]
  ring

/-- C2 amended, witness at the concrete instance `hd2`. -/
theorem c2_slope_antisymm_witness :
    ((⟨1, 0⟩ : Point).x - (⟨0, 0⟩ : Point).x, (⟨1, 0⟩ : Point).y - (⟨0, 0⟩ : Point).y) ∈ dirs true ∧
      calculateSlope hd2 ⟨0, 0⟩ ⟨1, 0⟩ = -calculateSlope hd2 ⟨1, 0⟩ ⟨0, 0⟩ :=
  ⟨by simp [dirs], c2_slope_antisymm hd2 ⟨0, 0⟩ ⟨1, 0⟩ (by simp [dirs])⟩

/-! ## Claim C1: the per-edge cost model -/

/-- C1 counterexample: on the steep downhill edge of `hd2` the code's
movement cost is the finite (negative!) value `-2`, while the
spec-side formula (absolute slope `45 > 30`) declares the edge
impassable. -/
theorem c1_counterexample :
    getMovementCost hd2 opts30 ⟨0, 0⟩ ⟨1, 0⟩ = some (-2) ∧
      specEdgeCost hd2 opts30 ⟨0, 0⟩ ⟨1, 0⟩ = none ∧
      specSlopeBetween hd2 ⟨0, 0⟩ ⟨1, 0⟩ > opts30.maxSlope := by
  refine ⟨?_, ?_, ?_⟩
  · unfold getMovementCost
    rw [if_neg (by rw [calculateSlope_hd2]; simp [opts30]; norm_num)]
    rw [calculateSlope_hd2, getDistance_hd2]
    simp [opts30]
    norm_num
  · unfold specEdgeCost
    rw [if_pos (by rw [specSlopeBetween_hd2]; simp [opts30]; norm_num)]
  · rw [specSlopeBetween_hd2]; simp [opts30]; norm_num

/-- Modelled from the spec (amended form): the spec's per-edge cost with
the SIGNED slope substituted for the absolute one, and the planar
distance spelled out as 1 per orthogonal direction and sqrt 2 per
diagonal direction. -/
def specEdgeCostSigned (hd : HeightData) (opts : PathfindingOptions)
    (a b : Point) : Option ℝ :=
  let pd : ℝ := if b.x - a.x = 0 ∨ b.y - a.y = 0 then 1 else Real.sqrt 2
  let slope := Real.arctan ((elev hd b - elev hd a) / pd) * (180 / Real.pi)
  if slope > opts.maxSlope then none
  else some (pd * opts.distanceWeight + slope / opts.maxSlope * opts.slopeWeight)

theorem getDistance_orth_horiz (a b : Point) (hx : b.x - a.x = 1 ∨ b.x - a.x = -1)
    (hy : b.y - a.y = 0) : getDistance a b = 1 := by
  unfold getDistance
  rcases hx with h | h <;> rw [h, hy] <;> norm_num

theorem getDistance_orth_vert (a b : Point) (hx : b.x - a.x = 0)
    (hy : b.y - a.y = 1 ∨ b.y - a.y = -1) : getDistance a b = 1 := by
  unfold getDistance
  rcases hy with h | h <;> rw [h, hx] <;> norm_num

theorem getDistance_diag (a b : Point) (hx : b.x - a.x = 1 ∨ b.x - a.x = -1)
    (hy : b.y - a.y = 1 ∨ b.y - a.y = -1) : getDistance a b = Real.sqrt 2 := by
  unfold getDistance
  rcases hx with h | h <;> rcases hy with h2 | h2 <;> rw [h, h2] <;> norm_num

/-- C1 amended: for adjacent cells the code's movement cost follows the
spec formula with the SIGNED slope
`atan((elev(B)-elev(A))/planarDistance)*180/π` in place of the spec's
absolute slope (planar distance 1 or sqrt 2 per direction), and the edge
is impassable exactly when that signed slope exceeds `maxSlope`. -/
theorem c1_cost_signed (hd : HeightData) (opts : PathfindingOptions) (a b : Point)
    (hadj : (b.x - a.x, b.y - a.y) ∈ dirs true) :
    getMovementCost hd opts a b = specEdgeCostSigned hd opts a b ∧
      (getMovementCost hd opts a b = none ↔ calculateSlope hd a b > opts.maxSlope) := by
  have hpd : getDistance a b =
      (if b.x - a.x = 0 ∨ b.y - a.y = 0 then (1 : ℝ) else Real.sqrt 2) := by
    have hadj' := hadj
    simp only [dirs, if_true, List.mem_append, List.mem_cons, List.not_mem_nil,
      or_false, Prod.mk.injEq] at hadj'
    rcases hadj' with (⟨h1, h2⟩ | ⟨h1, h2⟩ | ⟨h1, h2⟩ | ⟨h1, h2⟩) |
      (⟨h1, h2⟩ | ⟨h1, h2⟩ | ⟨h1, h2⟩ | ⟨h1, h2⟩)
    · rw [if_pos (Or.inl h1)]
      exact getDistance_orth_vert a b h1 (Or.inr h2)
    · rw [if_pos (Or.inr h2)]
      exact getDistance_orth_horiz a b (Or.inl h1) h2
    · rw [if_pos (Or.inl h1)]
      exact getDistance_orth_vert a b h1 (Or.inl h2)
    · rw [if_pos (Or.inr h2)]
      exact getDistance_orth_horiz a b (Or.inr h1) h2
    · rw [if_neg (by omega)]
      exact getDistance_diag a b (Or.inr h1) (Or.inr h2)
    · rw [if_neg (by omega)]
      exact getDistance_diag a b (Or.inl h1) (Or.inr h2)
    · rw [if_neg (by omega)]
      exact getDistance_diag a b (Or.inl h1) (Or.inl h2)
    · rw [if_neg (by omega)]
      exact getDistance_diag a b (Or.inr h1) (Or.inl h2)
  constructor
  · unfold getMovementCost specEdgeCostSigned calculateSlope
    rw [hpd]
  · unfold getMovementCost
    constructor
    · intro h
      by_contra hs
      rw [if_neg hs] at h
      exact Option.some_ne_none _ h
    · intro hs
      rw [if_pos hs]

/-- C1 amended, witness at the concrete instance `hd2`. -/
theorem c1_cost_signed_witness :
    ((⟨1, 0⟩ : Point).x - (⟨0, 0⟩ : Point).x, (⟨1, 0⟩ : Point).y - (⟨0, 0⟩ : Point).y) ∈ dirs true ∧
      getMovementCost hd2 opts30 ⟨0, 0⟩ ⟨1, 0⟩ = specEdgeCostSigned hd2 opts30 ⟨0, 0⟩ ⟨1, 0⟩ :=
  ⟨by simp [dirs], (c1_cost_signed hd2 opts30 ⟨0, 0⟩ ⟨1, 0⟩ (by simp [dirs])).1⟩

/-! ## Claim C8: bounds rejection, and Claim C10: failure shape -/

/-- C8: an out-of-bounds start or goal makes `findPath` return
immediately with `success = false`, an empty path and zero explored
nodes. -/
theorem c8_bounds_rejection (hd : HeightData) (opts : PathfindingOptions)
    (start goal : Point) (h : ¬ isValidPoint hd start ∨ ¬ isValidPoint hd goal) :
    findPath hd opts start goal = ⟨[], 0, false, 0⟩ := by
  unfold findPath
  rw [if_pos h]

/-- C8 witness: the start `(5,5)` lies outside the 2-by-1 grid `hd2`. -/
theorem c8_bounds_rejection_witness :
    (¬ isValidPoint hd2 ⟨5, 5⟩ ∨ ¬ isValidPoint hd2 ⟨0, 0⟩) ∧
      findPath hd2 opts30 ⟨5, 5⟩ ⟨0, 0⟩ = ⟨[], 0, false, 0⟩ :=
  ⟨Or.inl (by simp [isValidPoint, hd2]), c8_bounds_rejection hd2 opts30 ⟨5, 5⟩ ⟨0, 0⟩
    (Or.inl (by simp [isValidPoint, hd2]))⟩

theorem findPathLoop_failure (hd : HeightData) (opts : PathfindingOptions)
    (goal : Point) :
    ∀ (fuel : ℕ) (st : SearchState) (n : ℕ),
      (findPathLoop hd opts goal fuel st n).success = false →
      (findPathLoop hd opts goal fuel st n).path = [] ∧
        (findPathLoop hd opts goal fuel st n).cost = 0 := by
  intro fuel
  induction fuel with
  | zero => intro st n _; exact ⟨rfl, rfl⟩
  | succ fuel ih =>
    intro st n hfail
    rw [findPathLoop] at hfail ⊢
    generalize hpop : heapPop st.heap = r at hfail ⊢
    rcases r with _ | ⟨current, heap1⟩
    · exact ⟨rfl, rfl⟩
    · simp only [] at hfail ⊢
      by_cases hgoal : current.x = goal.x ∧ current.y = goal.y
      · rw [if_pos hgoal] at hfail
        simp at hfail
      · rw [if_neg hgoal] at hfail ⊢
        exact ih _ _ hfail

/-- C10: whenever `findPath` reports `success = false` -- out-of-bounds
endpoints or frontier exhaustion -- the returned path is empty and the
returned cost is exactly 0. -/
theorem c10_failure_shape (hd : HeightData) (opts : PathfindingOptions)
    (start goal : Point)
    (h : (findPath hd opts start goal).success = false) :
    (findPath hd opts start goal).path = [] ∧
      (findPath hd opts start goal).cost = 0 := by
  unfold findPath at h ⊢
  by_cases hv : ¬ isValidPoint hd start ∨ ¬ isValidPoint hd goal
  · rw [if_pos hv]
    exact ⟨rfl, rfl⟩
  · rw [if_neg hv] at h ⊢
    exact findPathLoop_failure hd opts goal _ _ _ h

/-- C10 witness: the failing invocation with start `(5,5)` on `hd2`. -/
theorem c10_failure_shape_witness :
    (findPath hd2 opts30 ⟨5, 5⟩ ⟨0, 0⟩).success = false ∧
      (findPath hd2 opts30 ⟨5, 5⟩ ⟨0, 0⟩).path = [] ∧
      (findPath hd2 opts30 ⟨5, 5⟩ ⟨0, 0⟩).cost = 0 := by
  have hs : (findPath hd2 opts30 ⟨5, 5⟩ ⟨0, 0⟩).success = false := by
    rw [c8_bounds_rejection hd2 opts30 ⟨5, 5⟩ ⟨0, 0⟩ (Or.inl (by simp [isValidPoint, hd2]))]
  exact ⟨hs, c10_failure_shape hd2 opts30 ⟨5, 5⟩ ⟨0, 0⟩ hs⟩


/-! ## Claim C9: self-path -/

theorem bubbleUp_zero (l : List PathNode) : bubbleUp l 0 = l := by
  rw [bubbleUp]
  simp

theorem heapPush_nil (n : PathNode) : heapPush [] n = [n] := by
  unfold heapPush
  simp [bubbleUp_zero]

theorem heapPop_single (n : PathNode) : heapPop [n] = some (n, []) := by
  simp [heapPop]

theorem idxOf_mod (w : ℕ) (x y : ℤ) (hx : 0 ≤ x) (hxw : x < (w : ℤ)) (hy : 0 ≤ y) :
    ((idxOf w x y % w : ℕ) : ℤ) = x := by
  unfold idxOf
  have hnn : 0 ≤ y * (w : ℤ) + x := by
    have := mul_nonneg hy (by positivity : (0 : ℤ) ≤ (w : ℤ))
    omega
  have h1 : (((y * (w : ℤ) + x).toNat % w : ℕ) : ℤ) = (y * (w : ℤ) + x) % (w : ℤ) := by
    push_cast [Int.toNat_of_nonneg hnn]
    ring_nf
  rw [h1, show y * (w : ℤ) + x = x + (w : ℤ) * y by ring, Int.add_mul_emod_self_left,
    Int.emod_eq_of_lt hx hxw]

theorem idxOf_div (w : ℕ) (x y : ℤ) (hx : 0 ≤ x) (hxw : x < (w : ℤ)) (hy : 0 ≤ y) :
    ((idxOf w x y / w : ℕ) : ℤ) = y := by
  unfold idxOf
  have hw : (0 : ℤ) < (w : ℤ) := lt_of_le_of_lt hx hxw
  have hnn : 0 ≤ y * (w : ℤ) + x := by
    have := mul_nonneg hy (le_of_lt hw)
    omega
  have h1 : (((y * (w : ℤ) + x).toNat / w : ℕ) : ℤ) = (y * (w : ℤ) + x) / (w : ℤ) := by
    push_cast [Int.toNat_of_nonneg hnn]
    ring_nf
  rw [h1, show y * (w : ℤ) + x = x + y * (w : ℤ) by ring,
    Int.add_mul_ediv_right _ _ (ne_of_gt hw), Int.ediv_eq_zero_of_lt hx hxw]
  ring

/-- C9: for an in-bounds cell, `findPath(cell, cell)` succeeds with the
single-element path `[cell]` and `totalCost = 0` (the start node is
popped first and immediately matches the goal). -/
theorem c9_self_path (hd : HeightData) (opts : PathfindingOptions) (c : Point)
    (hvalid : isValidPoint hd c) :
    (findPath hd opts c c).success = true ∧
      (findPath hd opts c c).path = [c] ∧ (findPath hd opts c c).cost = 0 := by
  obtain ⟨hx, hxw, hy, hyh⟩ := hvalid
  unfold findPath
  rw [if_neg (by
    simp only [not_or, not_not]
    exact ⟨⟨hx, hxw, hy, hyh⟩, ⟨hx, hxw, hy, hyh⟩⟩)]
  simp only [heapPush_nil]
  rw [findPathLoop]
  simp only [heapPop_single]
  rw [if_pos (by simp)]
  refine ⟨rfl, ?_, rfl⟩
  show reconAux (fun _ => none) hd.width (hd.width * hd.height + 1)
    (idxOf hd.width c.x c.y) [] = [c]
  rw [reconAux]
  show [(⟨((idxOf hd.width c.x c.y % hd.width : ℕ) : ℤ),
    ((idxOf hd.width c.x c.y / hd.width : ℕ) : ℤ)⟩ : Point)] = [c]
  rw [idxOf_mod hd.width c.x c.y hx hxw hy, idxOf_div hd.width c.x c.y hx hxw hy]

/-- C9 witness at the in-bounds cell `(1,0)` of `hd2`. -/
theorem c9_self_path_witness :
    isValidPoint hd2 ⟨1, 0⟩ ∧
      (findPath hd2 opts30 ⟨1, 0⟩ ⟨1, 0⟩).success = true ∧
      (findPath hd2 opts30 ⟨1, 0⟩ ⟨1, 0⟩).path = [⟨1, 0⟩] ∧
      (findPath hd2 opts30 ⟨1, 0⟩ ⟨1, 0⟩).cost = 0 :=
  ⟨by simp [isValidPoint, hd2],
    (c9_self_path hd2 opts30 ⟨1, 0⟩ (by simp [isValidPoint, hd2])).1,
    (c9_self_path hd2 opts30 ⟨1, 0⟩ (by simp [isValidPoint, hd2])).2.1,
    (c9_self_path hd2 opts30 ⟨1, 0⟩ (by simp [isValidPoint, hd2])).2.2⟩


/-! ## Terrain generation: fold lemmas for the raw extrema -/

theorem foldl_min_le_init (l : List ℝ) (a : EReal) : l.foldl minStep a ≤ a := by
  induction l generalizing a with
  | nil => exact le_refl a
  | cons v t ih => exact le_trans (ih _) (min_le_left _ _)

theorem foldl_min_le_mem (l : List ℝ) (a : EReal) (v : ℝ) (hv : v ∈ l) :
    l.foldl minStep a ≤ ↑v := by
  induction l generalizing a with
  | nil => cases hv
  | cons w t ih =>
    rcases List.mem_cons.mp hv with heq | hmem
    · subst heq
      exact le_trans (foldl_min_le_init t _) (min_le_right _ _)
    · exact ih _ hmem

theorem outer_min_le_init (raw : List (List ℝ)) (a : EReal) :
    raw.foldl (fun acc row => row.foldl minStep acc) a ≤ a := by
  induction raw generalizing a with
  | nil => exact le_refl a
  | cons r t ih => exact le_trans (ih _) (foldl_min_le_init r a)

theorem outer_min_le_mem (raw : List (List ℝ)) (a : EReal) (row : List ℝ)
    (hrow : row ∈ raw) (v : ℝ) (hv : v ∈ row) :
    raw.foldl (fun acc row => row.foldl minStep acc) a ≤ ↑v := by
  induction raw generalizing a with
  | nil => cases hrow
  | cons r t ih =>
    rcases List.mem_cons.mp hrow with heq | hmem
    · subst heq
      exact le_trans (outer_min_le_init t _) (foldl_min_le_mem row a v hv)
    · exact ih _ hmem

theorem rawMin_le_mem (raw : List (List ℝ)) (row : List ℝ) (hrow : row ∈ raw)
    (v : ℝ) (hv : v ∈ row) : rawMin raw ≤ ↑v :=
  outer_min_le_mem raw ⊤ row hrow v hv

theorem foldl_max_ge_init (l : List ℝ) (a : EReal) : a ≤ l.foldl maxStep a := by
  induction l generalizing a with
  | nil => exact le_refl a
  | cons v t ih => exact le_trans (le_max_left _ _) (ih _)

theorem foldl_max_ge_mem (l : List ℝ) (a : EReal) (v : ℝ) (hv : v ∈ l) :
    ↑v ≤ l.foldl maxStep a := by
  induction l generalizing a with
  | nil => cases hv
  | cons w t ih =>
    rcases List.mem_cons.mp hv with heq | hmem
    · subst heq
      exact le_trans (le_max_right _ _) (foldl_max_ge_init t _)
    · exact ih _ hmem

theorem outer_max_ge_init (raw : List (List ℝ)) (a : EReal) :
    a ≤ raw.foldl (fun acc row => row.foldl maxStep acc) a := by
  induction raw generalizing a with
  | nil => exact le_refl a
  | cons r t ih => exact le_trans (foldl_max_ge_init r a) (ih _)

theorem outer_max_ge_mem (raw : List (List ℝ)) (a : EReal) (row : List ℝ)
    (hrow : row ∈ raw) (v : ℝ) (hv : v ∈ row) :
    ↑v ≤ raw.foldl (fun acc row => row.foldl maxStep acc) a := by
  induction raw generalizing a with
  | nil => cases hrow
  | cons r t ih =>
    rcases List.mem_cons.mp hrow with heq | hmem
    · subst heq
      exact le_trans (foldl_max_ge_mem row a v hv) (outer_max_ge_init t _)
    · exact ih _ hmem

theorem rawMax_ge_mem (raw : List (List ℝ)) (row : List ℝ) (hrow : row ∈ raw)
    (v : ℝ) (hv : v ∈ row) : ↑v ≤ rawMax raw :=
  outer_max_ge_mem raw ⊥ row hrow v hv

theorem foldl_min_ne_bot (l : List ℝ) (a : EReal) (ha : a ≠ ⊥) :
    l.foldl minStep a ≠ ⊥ := by
  induction l generalizing a with
  | nil => exact ha
  | cons w t ih =>
    refine ih _ (fun hbot => ?_)
    rcases min_eq_bot.mp hbot with h | h
    · exact ha h
    · exact EReal.coe_ne_bot w h

theorem rawMin_ne_bot (raw : List (List ℝ)) : rawMin raw ≠ ⊥ := by
  unfold rawMin
  have step : ∀ (t : List (List ℝ)) (a : EReal), a ≠ ⊥ →
      t.foldl (fun acc row => row.foldl minStep acc) a ≠ ⊥ := by
    intro t
    induction t with
    | nil => exact fun a ha => ha
    | cons r tt ih => exact fun a ha => ih _ (foldl_min_ne_bot r a ha)
  exact step raw ⊤ (by simp)

theorem foldl_max_ne_top (l : List ℝ) (a : EReal) (ha : a ≠ ⊤) :
    l.foldl maxStep a ≠ ⊤ := by
  induction l generalizing a with
  | nil => exact ha
  | cons w t ih =>
    refine ih _ (fun htop => ?_)
    rcases max_eq_top.mp htop with h | h
    · exact ha h
    · exact EReal.coe_ne_top w h

theorem rawMax_ne_top (raw : List (List ℝ)) : rawMax raw ≠ ⊤ := by
  unfold rawMax
  have step : ∀ (t : List (List ℝ)) (a : EReal), a ≠ ⊤ →
      t.foldl (fun acc row => row.foldl maxStep acc) a ≠ ⊤ := by
    intro t
    induction t with
    | nil => exact fun a ha => ha
    | cons r tt ih => exact fun a ha => ih _ (foldl_max_ne_top r a ha)
  exact step raw ⊥ (by simp)

/-- Under a positive raw range, both extrema are finite reals and the
real-valued extrema straddle every grid sample. -/
theorem rawRange_facts (raw : List (List ℝ))
    (hlt : rawMin raw < rawMax raw) :
    (rawMin raw).toReal < (rawMax raw).toReal ∧
      ∀ row ∈ raw, ∀ v ∈ row,
        (rawMin raw).toReal ≤ v ∧ v ≤ (rawMax raw).toReal := by
  have hminbot : rawMin raw ≠ ⊥ := rawMin_ne_bot raw
  have hmaxtop : rawMax raw ≠ ⊤ := rawMax_ne_top raw
  have hmintop : rawMin raw ≠ ⊤ := by
    intro h
    rw [h] at hlt
    exact (not_top_lt hlt)
  have hmaxbot : rawMax raw ≠ ⊥ := by
    intro h
    rw [h] at hlt
    exact (not_lt_bot hlt)
  have hmin : (↑(rawMin raw).toReal : EReal) = rawMin raw := EReal.coe_toReal hmintop hminbot
  have hmax : (↑(rawMax raw).toReal : EReal) = rawMax raw := EReal.coe_toReal hmaxtop hmaxbot
  constructor
  · rw [← EReal.coe_lt_coe_iff, hmin, hmax]
    exact hlt
  · intro row hrow v hv
    constructor
    · rw [← EReal.coe_le_coe_iff, hmin]
      exact rawMin_le_mem raw row hrow v hv
    · rw [← EReal.coe_le_coe_iff, hmax]
      exact rawMax_ge_mem raw row hrow v hv


/-! ## Claims C5 and C6: generator output -/

theorem getD_map_of_lt {α β : Type _} (g : α → β) (l : List α) (y : ℕ)
    (hy : y < l.length) (d : β) (d2 : α) : (l.map g).getD y d = g (l.getD y d2) := by
  have h1 : l[y]? = some l[y] := List.getElem?_eq_getElem hy
  simp [List.getD_eq_getElem?_getD, List.getElem?_map, h1]

theorem genRawGrid_length (w h : ℕ) (opts : GenOptions) :
    (genRawGrid w h opts).length = h := by
  simp [genRawGrid]

theorem genRawGrid_row_len (w h : ℕ) (opts : GenOptions) (y : ℕ) (hy : y < h) :
    ((genRawGrid w h opts).getD y []).length = w := by
  unfold genRawGrid
  rw [getD_map_of_lt _ (List.range h) y (by simpa using hy) [] 0]
  simp

theorem processHeightArray_sample (raw : List (List ℝ)) (opts : LoadOptions)
    (y x : ℕ) (hy : y < raw.length) (hx : x < (raw.getD y []).length) :
    ((processHeightArray raw opts).data.getD y []).getD x 0 =
      processValue raw opts ((raw.getD y []).getD x 0) := by
  show ((raw.map (fun row => row.map (processValue raw opts))).getD y []).getD x 0 = _
  rw [getD_map_of_lt _ raw y hy [] []]
  rw [getD_map_of_lt _ _ x hx 0 0]

theorem processValue_normalized (raw : List (List ℝ)) (opts : LoadOptions) (v : ℝ)
    (hn : opts.normalize = true) (hlt : rawMin raw < rawMax raw) :
    processValue raw opts v =
      (v - (rawMin raw).toReal) / ((rawMax raw).toReal - (rawMin raw).toReal) *
        opts.scale + opts.offset := by
  unfold processValue
  rw [if_pos ⟨by simp [hn], hlt⟩]

theorem processValue_raw (raw : List (List ℝ)) (opts : LoadOptions) (v : ℝ)
    (hcond : ¬ (opts.normalize = true ∧ rawMin raw < rawMax raw)) :
    processValue raw opts v = v * opts.scale + opts.offset := by
  unfold processValue
  rw [if_neg (by simpa using hcond)]

/-- C5 amended: with `normalize = true` the generator records
`minElevation = 0` and `maxElevation = 1` (the inner call uses the
default scale 1 / offset 0; the configured `scale`/`offset` are applied
to the raw noise BEFORE normalization, not after), and -- when the raw
range is positive -- every sample is the `[0,1]`-normalization of its
pre-scaled raw value. -/
theorem c5_normalize_records (w h : ℕ) (opts : GenOptions)
    (hn : opts.normalize = true) :
    (generateProceduralTerrain w h opts).minHeight = 0 ∧
      (generateProceduralTerrain w h opts).maxHeight = 1 ∧
      (rawMin (genRawGrid w h opts) < rawMax (genRawGrid w h opts) →
        ∀ y x, y < h → x < w →
          ((generateProceduralTerrain w h opts).data.getD y []).getD x 0 =
            (((genRawGrid w h opts).getD y []).getD x 0 -
                (rawMin (genRawGrid w h opts)).toReal) /
              ((rawMax (genRawGrid w h opts)).toReal -
                (rawMin (genRawGrid w h opts)).toReal)) := by
  refine ⟨by simp [generateProceduralTerrain, processHeightArray, hn], ?_, ?_⟩
  · simp [generateProceduralTerrain, processHeightArray, hn]
  · intro hlt y x hy hx
    have hy' : y < (genRawGrid w h opts).length := by
      rw [genRawGrid_length]
      exact hy
    have hx' : x < ((genRawGrid w h opts).getD y []).length := by
      rw [genRawGrid_row_len w h opts y hy]
      exact hx
    show ((processHeightArray (genRawGrid w h opts)
        { normalize := opts.normalize, scale := 1, offset := 0 }).data.getD y []).getD x 0 = _
    rw [processHeightArray_sample _ _ y x hy' hx',
      processValue_normalized _ _ _ (by simpa using hn) hlt]
    norm_num

/-- Configuration used by the C5 counterexample and witnesses:
`amplitudeScale = 5`, everything else at source defaults. -/
def gen5 : GenOptions := { scale := 5 }

/-- C5 witness: the amended record values at a concrete invocation. -/
theorem c5_normalize_records_witness :
    gen5.normalize = true ∧
      (generateProceduralTerrain 1 1 gen5).minHeight = 0 ∧
      (generateProceduralTerrain 1 1 gen5).maxHeight = 1 :=
  ⟨rfl, (c5_normalize_records 1 1 gen5 rfl).1, (c5_normalize_records 1 1 gen5 rfl).2.1⟩

/-- C5 counterexample: with `amplitudeScale = 5`, `verticalOffset = 0`
and `normalize = true` the generated heightfield records
`maxElevation = 1`, not the claimed `amplitudeScale + verticalOffset = 5`. -/
theorem c5_counterexample :
    (generateProceduralTerrain 1 1 gen5).maxHeight = 1 ∧
      (generateProceduralTerrain 1 1 gen5).maxHeight ≠ gen5.scale + gen5.offset := by
  have h1 := (c5_normalize_records 1 1 gen5 rfl).2.1
  refine ⟨h1, ?_⟩
  rw [h1]
  show (1 : ℝ) ≠ 5 + 0
  norm_num

/-- C6 amended: the generator always produces exactly `height` rows of
exactly `width` entries; the recorded-extrema invariant
`minElevation ≤ sample ≤ maxElevation` holds whenever `normalize` is
off, or `normalize` is on and the raw range is positive -- but NOT in
the degenerate all-samples-equal normalized case (see the
counterexample). -/
theorem c6_generator_invariant (w h : ℕ) (opts : GenOptions) :
    (generateProceduralTerrain w h opts).data.length = h ∧
      (∀ row ∈ (generateProceduralTerrain w h opts).data, row.length = w) ∧
      ((opts.normalize = false ∨
          rawMin (genRawGrid w h opts) < rawMax (genRawGrid w h opts)) →
        ∀ row ∈ (generateProceduralTerrain w h opts).data, ∀ v ∈ row,
          (generateProceduralTerrain w h opts).minHeight ≤ v ∧
            v ≤ (generateProceduralTerrain w h opts).maxHeight) := by
  refine ⟨?_, ?_, ?_⟩
  · show ((genRawGrid w h opts).map _).length = h
    rw [List.length_map, genRawGrid_length]
  · intro row hrow
    rcases List.mem_map.mp hrow with ⟨row0, hrow0, hmap⟩
    subst hmap
    rw [List.length_map]
    unfold genRawGrid at hrow0
    rcases List.mem_map.mp hrow0 with ⟨y, _, hy⟩
    rw [← hy]
    simp
  · intro hcase row hrow v hv
    rcases List.mem_map.mp hrow with ⟨row0, hrow0, hmap⟩
    subst hmap
    rcases List.mem_map.mp hv with ⟨v0, hv0, hpv⟩
    subst hpv
    set raw := genRawGrid w h opts with hraw
    by_cases hb : opts.normalize = true
    · have hlt : rawMin raw < rawMax raw := by
        rcases hcase with hf | hlt
        · rw [hb] at hf
          cases hf
        · exact hlt
      obtain ⟨hltR, hbounds⟩ := rawRange_facts raw hlt
      obtain ⟨hlow, hhigh⟩ := hbounds row0 hrow0 v0 hv0
      have hval := processValue_normalized raw
        { normalize := opts.normalize, scale := 1, offset := 0 } v0 (by simpa using hb) hlt
      have hmin0 : (generateProceduralTerrain w h opts).minHeight = 0 := by
        simp [generateProceduralTerrain, processHeightArray, hb]
      have hmax1 : (generateProceduralTerrain w h opts).maxHeight = 1 := by
        simp [generateProceduralTerrain, processHeightArray, hb]
      rw [hmin0, hmax1]
      show (0 : ℝ) ≤ processValue raw _ v0 ∧ processValue raw _ v0 ≤ 1
      rw [hval]
      norm_num
      constructor
      · apply div_nonneg (by linarith) (by linarith)
      · rw [div_le_one (by linarith)]
        linarith
    · have hbf : opts.normalize = false := by
        cases hn2 : opts.normalize
        · rfl
        · exact absurd hn2 hb
      have hne : raw ≠ [] → True := fun _ => trivial
      have hfin_top : rawMin raw ≠ ⊤ :=
        ne_top_of_le_ne_top (EReal.coe_ne_top v0) (rawMin_le_mem raw row0 hrow0 v0 hv0)
      have hfin_bot : rawMax raw ≠ ⊥ := by
        intro hbot
        have := rawMax_ge_mem raw row0 hrow0 v0 hv0
        rw [hbot] at this
        exact (EReal.coe_ne_bot v0) (le_bot_iff.mp this)
      have hminco : (↑(rawMin raw).toReal : EReal) = rawMin raw :=
        EReal.coe_toReal hfin_top (rawMin_ne_bot raw)
      have hmaxco : (↑(rawMax raw).toReal : EReal) = rawMax raw :=
        EReal.coe_toReal (rawMax_ne_top raw) hfin_bot
      have hval := processValue_raw raw
        { normalize := opts.normalize, scale := 1, offset := 0 } v0
        (by
          intro hcontra
          rw [hbf] at hcontra
          cases hcontra.1)
      have hminH : (generateProceduralTerrain w h opts).minHeight =
          (rawMin raw).toReal * 1 + 0 := by
        simp [generateProceduralTerrain, processHeightArray, hbf]
      have hmaxH : (generateProceduralTerrain w h opts).maxHeight =
          (rawMax raw).toReal * 1 + 0 := by
        simp [generateProceduralTerrain, processHeightArray, hbf]
      rw [hminH, hmaxH]
      have hval' : processValue raw
          { normalize := opts.normalize, scale := 1, offset := 0 } v0 = v0 * 1 + 0 := hval
      rw [hval']
      have h1 : (rawMin raw).toReal ≤ v0 := by
        rw [← EReal.coe_le_coe_iff, hminco]
        exact rawMin_le_mem raw row0 hrow0 v0 hv0
      have h2 : v0 ≤ (rawMax raw).toReal := by
        rw [← EReal.coe_le_coe_iff, hmaxco]
        exact rawMax_ge_mem raw row0 hrow0 v0 hv0
      constructor <;> linarith

/-- Configuration used by the C6 witness: `normalize = false`. -/
def gen6f : GenOptions := { normalize := false }

/-- C6 witness: the invariant instantiated with `normalize = false` on a
1-by-1 grid. -/
theorem c6_generator_invariant_witness :
    (gen6f.normalize = false ∨
        rawMin (genRawGrid 1 1 gen6f) < rawMax (genRawGrid 1 1 gen6f)) ∧
      (∀ row ∈ (generateProceduralTerrain 1 1 gen6f).data, ∀ v ∈ row,
        (generateProceduralTerrain 1 1 gen6f).minHeight ≤ v ∧
          v ≤ (generateProceduralTerrain 1 1 gen6f).maxHeight) :=
  ⟨Or.inl rfl, (c6_generator_invariant 1 1 gen6f).2.2 (Or.inl rfl)⟩


/-! ## Noise evaluation at the origin, and the C6 counterexample -/

theorem grad_zero (hash : ℕ) : grad hash 0 0 = 0 := by
  simp only [grad]
  split_ifs <;> norm_num

theorem noise_zero : noise 0 0 = 0 := by
  simp only [noise]
  norm_num [fade, lerp, grad_zero]

theorem perlinNoise_zero : perlinNoise 0 0 = 0 := by
  unfold perlinNoise
  exact noise_zero

theorem foldl_first_invariant {α : Type _} (f : (ℝ × ℝ × ℝ) → α → (ℝ × ℝ × ℝ))
    (hf : ∀ s a, (f s a).1 = s.1) :
    ∀ (l : List α) (s : ℝ × ℝ × ℝ), (l.foldl f s).1 = s.1 := by
  intro l
  induction l with
  | nil => intro s; rfl
  | cons a t ih =>
    intro s
    rw [List.foldl_cons, ih, hf]

theorem genRawGrid_1_1 (opts : GenOptions) : genRawGrid 1 1 opts = [[opts.offset]] := by
  unfold genRawGrid
  rw [show List.range 1 = [0] from rfl]
  simp only [List.map]
  have hfold : ((List.range opts.octaves).foldl
      (fun (s : ℝ × ℝ × ℝ) (_ : ℕ) =>
        ((s.1 + perlinNoise (((0 : ℕ) : ℝ) * s.2.2 * opts.noiseScale)
          (((0 : ℕ) : ℝ) * s.2.2 * opts.noiseScale) * s.2.1,
          s.2.1 * opts.persistence, s.2.2 * opts.lacunarity) : ℝ × ℝ × ℝ))
      (0, 1, 1)).1 = (0 : ℝ) := by
    rw [foldl_first_invariant _ (fun s a => by
      show s.1 + perlinNoise _ _ * s.2.1 = s.1
      norm_num [perlinNoise_zero])]
  rw [hfold]
  norm_num

theorem rawMin_single (v : ℝ) : rawMin [[v]] = (v : EReal) := by
  simp only [rawMin, List.foldl, minStep]
  exact min_eq_right le_top

theorem rawMax_single (v : ℝ) : rawMax [[v]] = (v : EReal) := by
  simp only [rawMax, List.foldl, maxStep]
  exact max_eq_right bot_le

/-- Configuration used by the C6 counterexample: `verticalOffset = 3`,
`normalize = true` (default), everything else at source defaults.  All
raw samples of a 1-by-1 grid are equal, so normalization is skipped. -/
def gen6o : GenOptions := { offset := 3 }

/-- C6 counterexample: on a degenerate (all-raw-samples-equal) input the
generated heightfield stores the un-normalized sample `3` while
recording `minElevation = 0` and `maxElevation = 1`, so the data-model
invariant `sample ≤ maxElevation` FAILS. -/
theorem c6_counterexample :
    (generateProceduralTerrain 1 1 gen6o).data = [[3]] ∧
      (generateProceduralTerrain 1 1 gen6o).minHeight = 0 ∧
      (generateProceduralTerrain 1 1 gen6o).maxHeight = 1 ∧
      ¬ ((3 : ℝ) ≤ (generateProceduralTerrain 1 1 gen6o).maxHeight) := by
  have hdata : (generateProceduralTerrain 1 1 gen6o).data = [[3]] := by
    show (processHeightArray (genRawGrid 1 1 gen6o)
      { normalize := gen6o.normalize, scale := 1, offset := 0 }).data = [[3]]
    rw [genRawGrid_1_1]
    show [[(3 : ℝ)]].map (fun row => row.map (processValue [[(3 : ℝ)]]
      { normalize := gen6o.normalize, scale := 1, offset := 0 })) = [[3]]
    have hpv : processValue [[(3 : ℝ)]]
        { normalize := gen6o.normalize, scale := 1, offset := 0 } 3 = 3 := by
      rw [processValue_raw]
      · norm_num
      · rw [rawMin_single, rawMax_single]
        simp
    simp [hpv]
  have hmax : (generateProceduralTerrain 1 1 gen6o).maxHeight = 1 := by
    show (processHeightArray (genRawGrid 1 1 gen6o)
      { normalize := gen6o.normalize, scale := 1, offset := 0 }).maxHeight = 1
    simp [processHeightArray, gen6o]
  refine ⟨hdata, ?_, hmax, ?_⟩
  · show (processHeightArray (genRawGrid 1 1 gen6o)
      { normalize := gen6o.normalize, scale := 1, offset := 0 }).minHeight = 0
    simp [processHeightArray, gen6o]
  · rw [hmax]
    norm_num


/-! ## Concrete run: `findPath` over `hd2` crosses a spec-impassable edge -/

theorem mc_hd2_fwd : getMovementCost hd2 opts30 ⟨0, 0⟩ ⟨1, 0⟩ = some (-2) := by
  unfold getMovementCost
  rw [if_neg (by rw [calculateSlope_hd2]; simp [opts30]; norm_num)]
  rw [calculateSlope_hd2, getDistance_hd2]
  simp [opts30]
  norm_num

theorem heuristic_hd2_self : heuristic opts30 ⟨1, 0⟩ ⟨1, 0⟩ = 0 := by
  unfold heuristic getDistance
  simp [opts30]

theorem heuristic_hd2_start : heuristic opts30 ⟨0, 0⟩ ⟨1, 0⟩ = 1 := by
  unfold heuristic getDistance
  simp [opts30]

/-- Full evaluation of the A* run on `hd2` from `(0,0)` to `(1,0)`: the
steep downhill edge is taken (its code cost is `-2`), so the search
succeeds with total cost `-2`. -/
theorem run_hd2 : findPath hd2 opts30 ⟨0, 0⟩ ⟨1, 0⟩ =
    ⟨[⟨0, 0⟩, ⟨1, 0⟩], -2, true, 2⟩ := by
  unfold findPath
  rw [if_neg (by simp [isValidPoint, hd2])]
  simp only [heapPush_nil, show hd2.width = 2 from rfl, show hd2.height = 1 from rfl,
    heuristic_hd2_start]
  norm_num [findPathLoop, processNeighbor, dirs, heapPop_single, Function.update,
    geOpt, reconAux, idxOf, mc_hd2_fwd, heuristic_hd2_self, heapPush_nil, heapPop,
    show hd2.width = 2 from rfl, show hd2.height = 1 from rfl,
    show opts30.diagonalMovement = true from rfl]


/-! ## Square-root and arctangent bounds shared by the concrete runs -/

theorem sqrt2_lo : (1.414 : ℝ) < Real.sqrt 2 := by
  rw [Real.lt_sqrt (by norm_num)]
  norm_num

theorem sqrt2_hi : Real.sqrt 2 < 1.4143 := by
  rw [Real.sqrt_lt' (by norm_num)]
  norm_num

theorem sqrt3_lo : (1.732 : ℝ) < Real.sqrt 3 := by
  rw [Real.lt_sqrt (by norm_num)]
  norm_num

theorem sqrt3_hi : Real.sqrt 3 < 1.7321 := by
  rw [Real.sqrt_lt' (by norm_num)]
  norm_num

/-- `arctan (1/√3)` is `π/6` (30 degrees). -/
theorem pi_div_six_eq : Real.arctan (1 / Real.sqrt 3) = Real.pi / 6 := by
  have hpi := Real.pi_pos
  have h6 : Real.arctan (Real.tan (Real.pi / 6)) = Real.pi / 6 :=
    Real.arctan_tan (by linarith) (by linarith)
  rw [Real.tan_pi_div_six] at h6
  exact h6

/-- A rise of 3/4 over a unit run is steeper than 30 degrees. -/
theorem arctan34_deg_gt : (30 : ℝ) < Real.arctan (3 / 4) * (180 / Real.pi) := by
  have hpi := Real.pi_pos
  have hs3pos : (0 : ℝ) < Real.sqrt 3 := Real.sqrt_pos.mpr (by norm_num)
  have hs3 : (4 : ℝ) / 3 < Real.sqrt 3 := by
    rw [Real.lt_sqrt (by norm_num)]
    norm_num
  have harg : 1 / Real.sqrt 3 < 3 / 4 := by
    rw [div_lt_div_iff hs3pos (by norm_num)]
    linarith
  have hmono : Real.pi / 6 < Real.arctan (3 / 4) := by
    rw [← pi_div_six_eq]
    exact Real.arctan_strictMono harg
  have h180 : (0 : ℝ) < 180 / Real.pi := by positivity
  have heq : (30 : ℝ) = Real.pi / 6 * (180 / Real.pi) := by
    field_simp
    ring
  rw [heq]
  exact mul_lt_mul_of_pos_right hmono h180

/-! ## Literal `Int.toNat` evaluations (stated as `rfl` lemmas so they
also fire inside `norm_num` calls, which renormalises the numerals) -/

theorem toNat_two : Int.toNat 2 = 2 := rfl

theorem toNat_three : Int.toNat 3 = 3 := rfl

theorem toNat_four : Int.toNat 4 = 4 := rfl

/-! ## Small heap evaluation lemmas -/

theorem heapPush_pair (a b : PathNode) :
    heapPush [a] b = if heapCompare b a < 0 then [b, a] else [a, b] := by
  unfold heapPush
  rw [show ([a] ++ [b] : List PathNode) = [a, b] from rfl]
  rw [bubbleUp]
  norm_num [bubbleUp_zero]

theorem bubbleDown_single (a : PathNode) : bubbleDown [a] 0 = [a] := by
  unfold bubbleDown bubbleDownAux
  norm_num

theorem heapPop_pair (a b : PathNode) : heapPop [a, b] = some (a, [b]) := by
  unfold heapPop
  norm_num [bubbleDown_single]

/-! ## The C7 instance: a 2-by-2 grid with a 3/4-high spike at (1,0).

The diagonal from `(0,0)` to `(1,1)` is flat (slope 0, passable), but the
midpoint sample of that segment rounds to `(1,1)`, whose per-cell slope
(looking at the spike neighbor `(1,0)`) is `arctan(3/4) = 36.87` degrees,
above the 30-degree limit. -/

/-- 2-by-2 heightfield, flat except a 3/4-high spike at `(1,0)`. -/
def hd2x2 : HeightData :=
  { width := 2, height := 2, data := [[0, 3 / 4], [0, 0]],
    minHeight := 0, maxHeight := 3 / 4 }

theorem mc2x2_up : getMovementCost hd2x2 opts30 ⟨0, 0⟩ ⟨1, 0⟩ = none := by
  unfold getMovementCost
  rw [if_pos ?_]
  unfold calculateSlope getDistance elev
  norm_num [hd2x2, opts30, Int.toNat_ofNat]
  linarith [arctan34_deg_gt]

theorem mc2x2_down : getMovementCost hd2x2 opts30 ⟨0, 0⟩ ⟨0, 1⟩ = some 1 := by
  unfold getMovementCost calculateSlope getDistance elev
  norm_num [hd2x2, opts30, Int.toNat_ofNat, Real.arctan_zero]

theorem mc2x2_diag : getMovementCost hd2x2 opts30 ⟨0, 0⟩ ⟨1, 1⟩ = some (Real.sqrt 2) := by
  unfold getMovementCost calculateSlope getDistance elev
  norm_num [hd2x2, opts30, Int.toNat_ofNat, Real.arctan_zero]

theorem h2x2_00 : heuristic opts30 ⟨0, 0⟩ ⟨1, 1⟩ = Real.sqrt 2 := by
  unfold heuristic getDistance
  norm_num [opts30]

theorem h2x2_01 : heuristic opts30 ⟨0, 1⟩ ⟨1, 1⟩ = 1 := by
  unfold heuristic getDistance
  norm_num [opts30]

theorem h2x2_11 : heuristic opts30 ⟨1, 1⟩ ⟨1, 1⟩ = 0 := by
  unfold heuristic getDistance
  norm_num [opts30]

theorem c2x2_cmp :
    (heapCompare (⟨1, 1, Real.sqrt 2, 0, Real.sqrt 2⟩ : PathNode)
      (⟨0, 1, 1, 1, 2⟩ : PathNode) < 0) = True :=
  eq_true (by
    unfold heapCompare
    show Real.sqrt 2 - 2 < 0
    linarith [sqrt2_hi])

set_option maxHeartbeats 4000000 in
/-- Full evaluation of the A* run on `hd2x2`: the flat diagonal is taken
directly, skirting the spike. -/
theorem run_2x2 : findPath hd2x2 opts30 ⟨0, 0⟩ ⟨1, 1⟩ =
    ⟨[⟨0, 0⟩, ⟨1, 1⟩], Real.sqrt 2, true, 2⟩ := by
  unfold findPath
  rw [if_neg (by simp [isValidPoint, hd2x2])]
  simp only [heapPush_nil, show hd2x2.width = 2 from rfl, show hd2x2.height = 2 from rfl,
    h2x2_00]
  norm_num [findPathLoop, processNeighbor, dirs, heapPop_single, heapPop_pair,
    heapPush_pair, heapPush_nil, Function.update, geOpt, reconAux, idxOf,
    toNat_two, toNat_three,
    mc2x2_up, mc2x2_down, mc2x2_diag, h2x2_01, h2x2_11, c2x2_cmp,
    show hd2x2.width = 2 from rfl, show hd2x2.height = 2 from rfl,
    show opts30.diagonalMovement = true from rfl]

/-- The per-cell slope at `(1,1)` of `hd2x2` is `arctan(3/4)` degrees
(driven by the spike neighbor `(1,0)`). -/
theorem slope2x2_11 : getSlopeAt hd2x2 ⟨1, 1⟩ = Real.arctan (3 / 4) * (180 / Real.pi) := by
  unfold getSlopeAt slopeDirections elev
  rw [if_neg (by simp [isValidPoint, hd2x2])]
  norm_num [hd2x2, Real.arctan_zero, Int.toNat_ofNat, abs_of_pos]
  have harc : (0 : ℝ) < Real.arctan (3 / 4) := by
    have h := Real.arctan_strictMono (show (0 : ℝ) < 3 / 4 by norm_num)
    rwa [Real.arctan_zero] at h
  exact mul_nonneg harc.le (by positivity)

/-- The diagonal segment `(0,0)`-`(1,1)` fails the line-of-sight check:
its midpoint sample rounds to `(1,1)`, whose slope exceeds 30 degrees. -/
theorem sight2x2_false : ¬ hasDirectLineOfSight hd2x2 opts30 ⟨0, 0⟩ ⟨1, 1⟩ := by
  unfold hasDirectLineOfSight
  intro h
  have hceil : ⌈getDistance (⟨0, 0⟩ : Point) ⟨1, 1⟩⌉₊ = 2 := by
    rw [show getDistance (⟨0, 0⟩ : Point) ⟨1, 1⟩ = Real.sqrt 2 by
      unfold getDistance; norm_num]
    rw [Nat.ceil_eq_iff (by norm_num)]
    constructor
    · push_cast
      linarith [sqrt2_lo]
    · push_cast
      linarith [sqrt2_hi]
  rw [hceil] at h
  have h1 := h 1 (by norm_num [List.range'])
  norm_num [round_eq, hceil] at h1
  rw [slope2x2_11] at h1
  exact absurd arctan34_deg_gt (by simpa [opts30] using h1.2)

theorem smooth_2x2 : smoothPath hd2x2 opts30 [⟨0, 0⟩, ⟨1, 1⟩] = [⟨0, 0⟩, ⟨1, 1⟩] := by
  simp [smoothPath]

/-! ## Claim C7: smoothing safety -/

/-- C7 counterexample: `findPath` on `hd2x2` succeeds with the path
`[(0,0),(1,1)]`; `smoothPath` keeps it unchanged, yet its single
straight-line segment fails the sampled-slope condition (the midpoint
sample `(1,1)` has per-cell slope 36.87 degrees > 30), refuting the
claim that every retained segment samples only cells of slope at most
`maxSlopeDegrees`. -/
theorem c7_counterexample :
    (findPath hd2x2 opts30 ⟨0, 0⟩ ⟨1, 1⟩).success = true ∧
    smoothPath hd2x2 opts30 (findPath hd2x2 opts30 ⟨0, 0⟩ ⟨1, 1⟩).path =
      [⟨0, 0⟩, ⟨1, 1⟩] ∧
    ¬ hasDirectLineOfSight hd2x2 opts30 ⟨0, 0⟩ ⟨1, 1⟩ := by
  refine ⟨by rw [run_2x2], ?_, sight2x2_false⟩
  rw [run_2x2]
  exact smooth_2x2

/-- Any fold step that only ever appends extends its accumulator. -/
theorem foldl_extends {α β : Type _} (step : List α → β → List α)
    (hstep : ∀ acc b, ∃ t, step acc b = acc ++ t) :
    ∀ (l : List β) (acc : List α), ∃ s, l.foldl step acc = acc ++ s := by
  intro l
  induction l with
  | nil => exact fun acc => ⟨[], by simp⟩
  | cons b l ih =>
    intro acc
    obtain ⟨t, ht⟩ := hstep acc b
    obtain ⟨s, hs⟩ := ih (acc ++ t)
    exact ⟨t ++ s, by simp [List.foldl_cons, ht, hs]⟩

/-- The last element of a nonempty list as a `getD` lookup. -/
theorem getLast?_eq_getD (l : List Point) (hne : l ≠ []) :
    l.getLast? = some (l.getD (l.length - 1) default) := by
  induction l with
  | nil => simp at hne
  | cons a t ih =>
    cases t with
    | nil => simp
    | cons b u =>
      rw [List.getLast?_cons_cons, ih (by simp)]
      congr 1

/-- C7 (amended): `smoothPath` always keeps the original first and last
waypoints (the sampled-slope half of the claim is refuted by
`c7_counterexample`: line-of-sight is checked against the ORIGINAL
neighbors of each dropped waypoint, not against the retained
segments). -/
theorem c7_smoothing_endpoints (hd : HeightData) (opts : PathfindingOptions)
    (path : List Point) :
    (smoothPath hd opts path).head? = path.head? ∧
    (smoothPath hd opts path).getLast? = path.getLast? := by
  unfold smoothPath
  by_cases hlen : path.length ≤ 2
  · rw [if_pos hlen]
    exact ⟨rfl, rfl⟩
  · rw [if_neg hlen]
    push_neg at hlen
    obtain ⟨s, hs⟩ := foldl_extends
      (fun acc i =>
        if ¬ hasDirectLineOfSight hd opts (path.getD (i - 1) default)
            (path.getD (i + 1) default)
        then acc ++ [path.getD i default] else acc)
      (fun acc i => by
        by_cases hc : ¬ hasDirectLineOfSight hd opts (path.getD (i - 1) default)
            (path.getD (i + 1) default)
        · exact ⟨[path.getD i default], by simp only [if_pos hc]⟩
        · exact ⟨[], by simp only [if_neg hc, List.append_nil]⟩)
      (List.range' 1 (path.length - 2)) [path.getD 0 default]
    rw [hs]
    obtain ⟨a, t, rfl⟩ : ∃ a t, path = a :: t := by
      cases path with
      | nil => simp at hlen
      | cons a t => exact ⟨a, t, rfl⟩
    constructor
    · simp
    · rw [List.getLast?_concat]
      exact (getLast?_eq_getD _ (by simp)).symm


/-! ## Claim C3: optimality over spec-valid paths -/

/-- On `hd2` there is NO path from `(0,0)` to `(1,0)` whose every edge
the spec's absolute-slope cost model declares passable: the only
possible first step crosses the single 45-degree edge. -/
theorem hd2_no_spec_path (p : List Point) :
    ¬ isSpecValidPath hd2 opts30 ⟨0, 0⟩ ⟨1, 0⟩ p := by
  rintro ⟨⟨hhead, hlast, hvalid, hchain⟩, hslope⟩
  cases p with
  | nil => simp at hhead
  | cons a q =>
    have ha : a = ⟨0, 0⟩ := by simpa using hhead
    subst ha
    cases q with
    | nil => simp at hlast
    | cons b r =>
      have hstep : isStep hd2 opts30 ⟨0, 0⟩ b := (List.chain'_cons.mp hchain).1
      have hsl : ¬ specSlopeBetween hd2 ⟨0, 0⟩ b > opts30.maxSlope :=
        (List.chain'_cons.mp hslope).1
      obtain ⟨hmem, hbvalid⟩ := hstep
      obtain ⟨hx0, hx1, hy0, hy1⟩ :
          0 ≤ b.x ∧ b.x < 2 ∧ 0 ≤ b.y ∧ b.y < 1 := by
        simpa [isValidPoint, hd2] using hbvalid
      simp only [dirs, show opts30.diagonalMovement = true from rfl, if_true,
        List.mem_append, List.mem_cons, List.not_mem_nil, or_false,
        Prod.mk.injEq] at hmem
      have hb : b = ⟨1, 0⟩ := by
        obtain ⟨hbx, hby⟩ : b.x = 1 ∧ b.y = 0 := by omega
        cases b
        simp_all
      rw [hb] at hsl
      exact hsl (by
        rw [specSlopeBetween_hd2]
        show (45 : ℝ) > opts30.maxSlope
        norm_num [opts30])

/-- C3: the claimed optimality of `totalCost` over spec-valid paths is
violated by the code (a code bug: `calculateSlope` omits the absolute
value prescribed by the spec, so steep descents get negative slopes and
negative costs).  On `hd2` the search succeeds with `totalCost = -2`
even though NO start-to-goal path is passable under the spec's
absolute-slope cost model, so no minimum over that (empty) set of paths
exists, let alone equals the returned cost. -/
theorem c3_optimality_fails :
    (findPath hd2 opts30 ⟨0, 0⟩ ⟨1, 0⟩).success = true ∧
    (findPath hd2 opts30 ⟨0, 0⟩ ⟨1, 0⟩).cost = -2 ∧
    ∀ p : List Point, ¬ isSpecValidPath hd2 opts30 ⟨0, 0⟩ ⟨1, 0⟩ p :=
  ⟨by rw [run_hd2], by rw [run_hd2], hd2_no_spec_path⟩


/-! ## The C4 instance: a flat 5-by-5 grid, searched corner to corner -/

/-- Flat 5-by-5 heightfield: every elevation is `0`. -/
def flat5 : HeightData :=
  { width := 5, height := 5,
    data := [[0, 0, 0, 0, 0], [0, 0, 0, 0, 0], [0, 0, 0, 0, 0],
      [0, 0, 0, 0, 0], [0, 0, 0, 0, 0]],
    minHeight := 0, maxHeight := 0 }

theorem toNat_5 : Int.toNat 5 = 5 := rfl

theorem toNat_6 : Int.toNat 6 = 6 := rfl

theorem toNat_7 : Int.toNat 7 = 7 := rfl

theorem toNat_8 : Int.toNat 8 = 8 := rfl

theorem toNat_9 : Int.toNat 9 = 9 := rfl

theorem toNat_10 : Int.toNat 10 = 10 := rfl

theorem toNat_11 : Int.toNat 11 = 11 := rfl

theorem toNat_12 : Int.toNat 12 = 12 := rfl

theorem toNat_13 : Int.toNat 13 = 13 := rfl

theorem toNat_14 : Int.toNat 14 = 14 := rfl

theorem toNat_15 : Int.toNat 15 = 15 := rfl

theorem toNat_16 : Int.toNat 16 = 16 := rfl

theorem toNat_17 : Int.toNat 17 = 17 := rfl

theorem toNat_18 : Int.toNat 18 = 18 := rfl

theorem toNat_19 : Int.toNat 19 = 19 := rfl

theorem toNat_20 : Int.toNat 20 = 20 := rfl

theorem toNat_21 : Int.toNat 21 = 21 := rfl

theorem toNat_22 : Int.toNat 22 = 22 := rfl

theorem toNat_23 : Int.toNat 23 = 23 := rfl

theorem toNat_24 : Int.toNat 24 = 24 := rfl

theorem sqrt4_eq : Real.sqrt 4 = 2 := by
  rw [show (4 : ℝ) = 2 ^ 2 by norm_num, Real.sqrt_sq (by norm_num : (0 : ℝ) ≤ 2)]

theorem sqrt25_eq : Real.sqrt 25 = 5 := by
  rw [show (25 : ℝ) = 5 ^ 2 by norm_num, Real.sqrt_sq (by norm_num : (0 : ℝ) ≤ 5)]

theorem sqrt5_lo : (2.236 : ℝ) < Real.sqrt 5 := by
  rw [Real.lt_sqrt (by norm_num)]
  norm_num

theorem sqrt5_hi : Real.sqrt 5 < 2.2361 := by
  rw [Real.sqrt_lt' (by norm_num)]
  norm_num

theorem sqrt8_lo : (2.8284 : ℝ) < Real.sqrt 8 := by
  rw [Real.lt_sqrt (by norm_num)]
  norm_num

theorem sqrt8_hi : Real.sqrt 8 < 2.8285 := by
  rw [Real.sqrt_lt' (by norm_num)]
  norm_num

theorem sqrt10_lo : (3.162 : ℝ) < Real.sqrt 10 := by
  rw [Real.lt_sqrt (by norm_num)]
  norm_num

theorem sqrt10_hi : Real.sqrt 10 < 3.1623 := by
  rw [Real.sqrt_lt' (by norm_num)]
  norm_num

theorem sqrt13_lo : (3.605 : ℝ) < Real.sqrt 13 := by
  rw [Real.lt_sqrt (by norm_num)]
  norm_num

theorem sqrt13_hi : Real.sqrt 13 < 3.6056 := by
  rw [Real.sqrt_lt' (by norm_num)]
  norm_num

theorem sqrt18_lo : (4.2426 : ℝ) < Real.sqrt 18 := by
  rw [Real.lt_sqrt (by norm_num)]
  norm_num

theorem sqrt18_hi : Real.sqrt 18 < 4.2427 := by
  rw [Real.sqrt_lt' (by norm_num)]
  norm_num

theorem sqrt20_lo : (4.4721 : ℝ) < Real.sqrt 20 := by
  rw [Real.lt_sqrt (by norm_num)]
  norm_num

theorem sqrt20_hi : Real.sqrt 20 < 4.4722 := by
  rw [Real.sqrt_lt' (by norm_num)]
  norm_num
theorem mcC4_0_0_1_0 : getMovementCost flat5 opts30 ⟨0, 0⟩ ⟨1, 0⟩ = some (1) := by
  unfold getMovementCost calculateSlope getDistance elev
  norm_num [flat5, opts30, Real.arctan_zero, toNat_two, toNat_three, toNat_four]

theorem mcC4_0_0_0_1 : getMovementCost flat5 opts30 ⟨0, 0⟩ ⟨0, 1⟩ = some (1) := by
  unfold getMovementCost calculateSlope getDistance elev
  norm_num [flat5, opts30, Real.arctan_zero, toNat_two, toNat_three, toNat_four]

theorem mcC4_0_0_1_1 : getMovementCost flat5 opts30 ⟨0, 0⟩ ⟨1, 1⟩ = some (Real.sqrt 2) := by
  unfold getMovementCost calculateSlope getDistance elev
  norm_num [flat5, opts30, Real.arctan_zero, toNat_two, toNat_three, toNat_four]

theorem mcC4_1_1_1_0 : getMovementCost flat5 opts30 ⟨1, 1⟩ ⟨1, 0⟩ = some (1) := by
  unfold getMovementCost calculateSlope getDistance elev
  norm_num [flat5, opts30, Real.arctan_zero, toNat_two, toNat_three, toNat_four]

theorem mcC4_1_1_2_1 : getMovementCost flat5 opts30 ⟨1, 1⟩ ⟨2, 1⟩ = some (1) := by
  unfold getMovementCost calculateSlope getDistance elev
  norm_num [flat5, opts30, Real.arctan_zero, toNat_two, toNat_three, toNat_four]

theorem mcC4_1_1_1_2 : getMovementCost flat5 opts30 ⟨1, 1⟩ ⟨1, 2⟩ = some (1) := by
  unfold getMovementCost calculateSlope getDistance elev
  norm_num [flat5, opts30, Real.arctan_zero, toNat_two, toNat_three, toNat_four]

theorem mcC4_1_1_0_1 : getMovementCost flat5 opts30 ⟨1, 1⟩ ⟨0, 1⟩ = some (1) := by
  unfold getMovementCost calculateSlope getDistance elev
  norm_num [flat5, opts30, Real.arctan_zero, toNat_two, toNat_three, toNat_four]

theorem mcC4_1_1_2_0 : getMovementCost flat5 opts30 ⟨1, 1⟩ ⟨2, 0⟩ = some (Real.sqrt 2) := by
  unfold getMovementCost calculateSlope getDistance elev
  norm_num [flat5, opts30, Real.arctan_zero, toNat_two, toNat_three, toNat_four]

theorem mcC4_1_1_2_2 : getMovementCost flat5 opts30 ⟨1, 1⟩ ⟨2, 2⟩ = some (Real.sqrt 2) := by
  unfold getMovementCost calculateSlope getDistance elev
  norm_num [flat5, opts30, Real.arctan_zero, toNat_two, toNat_three, toNat_four]

theorem mcC4_1_1_0_2 : getMovementCost flat5 opts30 ⟨1, 1⟩ ⟨0, 2⟩ = some (Real.sqrt 2) := by
  unfold getMovementCost calculateSlope getDistance elev
  norm_num [flat5, opts30, Real.arctan_zero, toNat_two, toNat_three, toNat_four]

theorem mcC4_2_2_2_1 : getMovementCost flat5 opts30 ⟨2, 2⟩ ⟨2, 1⟩ = some (1) := by
  unfold getMovementCost calculateSlope getDistance elev
  norm_num [flat5, opts30, Real.arctan_zero, toNat_two, toNat_three, toNat_four]

theorem mcC4_2_2_3_2 : getMovementCost flat5 opts30 ⟨2, 2⟩ ⟨3, 2⟩ = some (1) := by
  unfold getMovementCost calculateSlope getDistance elev
  norm_num [flat5, opts30, Real.arctan_zero, toNat_two, toNat_three, toNat_four]

theorem mcC4_2_2_2_3 : getMovementCost flat5 opts30 ⟨2, 2⟩ ⟨2, 3⟩ = some (1) := by
  unfold getMovementCost calculateSlope getDistance elev
  norm_num [flat5, opts30, Real.arctan_zero, toNat_two, toNat_three, toNat_four]

theorem mcC4_2_2_1_2 : getMovementCost flat5 opts30 ⟨2, 2⟩ ⟨1, 2⟩ = some (1) := by
  unfold getMovementCost calculateSlope getDistance elev
  norm_num [flat5, opts30, Real.arctan_zero, toNat_two, toNat_three, toNat_four]

theorem mcC4_2_2_3_1 : getMovementCost flat5 opts30 ⟨2, 2⟩ ⟨3, 1⟩ = some (Real.sqrt 2) := by
  unfold getMovementCost calculateSlope getDistance elev
  norm_num [flat5, opts30, Real.arctan_zero, toNat_two, toNat_three, toNat_four]

theorem mcC4_2_2_3_3 : getMovementCost flat5 opts30 ⟨2, 2⟩ ⟨3, 3⟩ = some (Real.sqrt 2) := by
  unfold getMovementCost calculateSlope getDistance elev
  norm_num [flat5, opts30, Real.arctan_zero, toNat_two, toNat_three, toNat_four]

theorem mcC4_2_2_1_3 : getMovementCost flat5 opts30 ⟨2, 2⟩ ⟨1, 3⟩ = some (Real.sqrt 2) := by
  unfold getMovementCost calculateSlope getDistance elev
  norm_num [flat5, opts30, Real.arctan_zero, toNat_two, toNat_three, toNat_four]

theorem mcC4_3_3_3_2 : getMovementCost flat5 opts30 ⟨3, 3⟩ ⟨3, 2⟩ = some (1) := by
  unfold getMovementCost calculateSlope getDistance elev
  norm_num [flat5, opts30, Real.arctan_zero, toNat_two, toNat_three, toNat_four]

theorem mcC4_3_3_4_3 : getMovementCost flat5 opts30 ⟨3, 3⟩ ⟨4, 3⟩ = some (1) := by
  unfold getMovementCost calculateSlope getDistance elev
  norm_num [flat5, opts30, Real.arctan_zero, toNat_two, toNat_three, toNat_four]

theorem mcC4_3_3_3_4 : getMovementCost flat5 opts30 ⟨3, 3⟩ ⟨3, 4⟩ = some (1) := by
  unfold getMovementCost calculateSlope getDistance elev
  norm_num [flat5, opts30, Real.arctan_zero, toNat_two, toNat_three, toNat_four]

theorem mcC4_3_3_2_3 : getMovementCost flat5 opts30 ⟨3, 3⟩ ⟨2, 3⟩ = some (1) := by
  unfold getMovementCost calculateSlope getDistance elev
  norm_num [flat5, opts30, Real.arctan_zero, toNat_two, toNat_three, toNat_four]

theorem mcC4_3_3_4_2 : getMovementCost flat5 opts30 ⟨3, 3⟩ ⟨4, 2⟩ = some (Real.sqrt 2) := by
  unfold getMovementCost calculateSlope getDistance elev
  norm_num [flat5, opts30, Real.arctan_zero, toNat_two, toNat_three, toNat_four]

theorem mcC4_3_3_4_4 : getMovementCost flat5 opts30 ⟨3, 3⟩ ⟨4, 4⟩ = some (Real.sqrt 2) := by
  unfold getMovementCost calculateSlope getDistance elev
  norm_num [flat5, opts30, Real.arctan_zero, toNat_two, toNat_three, toNat_four]

theorem mcC4_3_3_2_4 : getMovementCost flat5 opts30 ⟨3, 3⟩ ⟨2, 4⟩ = some (Real.sqrt 2) := by
  unfold getMovementCost calculateSlope getDistance elev
  norm_num [flat5, opts30, Real.arctan_zero, toNat_two, toNat_three, toNat_four]

theorem hC4_0_0 : heuristic opts30 ⟨0, 0⟩ ⟨4, 4⟩ = Real.sqrt 32 := by
  unfold heuristic getDistance
  norm_num [opts30, sqrt4_eq, sqrt25_eq]

theorem hC4_1_0 : heuristic opts30 ⟨1, 0⟩ ⟨4, 4⟩ = 5 := by
  unfold heuristic getDistance
  norm_num [opts30, sqrt4_eq, sqrt25_eq]

theorem hC4_0_1 : heuristic opts30 ⟨0, 1⟩ ⟨4, 4⟩ = 5 := by
  unfold heuristic getDistance
  norm_num [opts30, sqrt4_eq, sqrt25_eq]

theorem hC4_1_1 : heuristic opts30 ⟨1, 1⟩ ⟨4, 4⟩ = Real.sqrt 18 := by
  unfold heuristic getDistance
  norm_num [opts30, sqrt4_eq, sqrt25_eq]

theorem hC4_2_1 : heuristic opts30 ⟨2, 1⟩ ⟨4, 4⟩ = Real.sqrt 13 := by
  unfold heuristic getDistance
  norm_num [opts30, sqrt4_eq, sqrt25_eq]

theorem hC4_1_2 : heuristic opts30 ⟨1, 2⟩ ⟨4, 4⟩ = Real.sqrt 13 := by
  unfold heuristic getDistance
  norm_num [opts30, sqrt4_eq, sqrt25_eq]

theorem hC4_2_0 : heuristic opts30 ⟨2, 0⟩ ⟨4, 4⟩ = Real.sqrt 20 := by
  unfold heuristic getDistance
  norm_num [opts30, sqrt4_eq, sqrt25_eq]

theorem hC4_2_2 : heuristic opts30 ⟨2, 2⟩ ⟨4, 4⟩ = Real.sqrt 8 := by
  unfold heuristic getDistance
  norm_num [opts30, sqrt4_eq, sqrt25_eq]

theorem hC4_0_2 : heuristic opts30 ⟨0, 2⟩ ⟨4, 4⟩ = Real.sqrt 20 := by
  unfold heuristic getDistance
  norm_num [opts30, sqrt4_eq, sqrt25_eq]

theorem hC4_3_2 : heuristic opts30 ⟨3, 2⟩ ⟨4, 4⟩ = Real.sqrt 5 := by
  unfold heuristic getDistance
  norm_num [opts30, sqrt4_eq, sqrt25_eq]

theorem hC4_2_3 : heuristic opts30 ⟨2, 3⟩ ⟨4, 4⟩ = Real.sqrt 5 := by
  unfold heuristic getDistance
  norm_num [opts30, sqrt4_eq, sqrt25_eq]

theorem hC4_3_1 : heuristic opts30 ⟨3, 1⟩ ⟨4, 4⟩ = Real.sqrt 10 := by
  unfold heuristic getDistance
  norm_num [opts30, sqrt4_eq, sqrt25_eq]

theorem hC4_3_3 : heuristic opts30 ⟨3, 3⟩ ⟨4, 4⟩ = Real.sqrt 2 := by
  unfold heuristic getDistance
  norm_num [opts30, sqrt4_eq, sqrt25_eq]

theorem hC4_1_3 : heuristic opts30 ⟨1, 3⟩ ⟨4, 4⟩ = Real.sqrt 10 := by
  unfold heuristic getDistance
  norm_num [opts30, sqrt4_eq, sqrt25_eq]

theorem hC4_4_3 : heuristic opts30 ⟨4, 3⟩ ⟨4, 4⟩ = 1 := by
  unfold heuristic getDistance
  norm_num [opts30, sqrt4_eq, sqrt25_eq]

theorem hC4_3_4 : heuristic opts30 ⟨3, 4⟩ ⟨4, 4⟩ = 1 := by
  unfold heuristic getDistance
  norm_num [opts30, sqrt4_eq, sqrt25_eq]

theorem hC4_4_2 : heuristic opts30 ⟨4, 2⟩ ⟨4, 4⟩ = 2 := by
  unfold heuristic getDistance
  norm_num [opts30, sqrt4_eq, sqrt25_eq]

theorem hC4_4_4 : heuristic opts30 ⟨4, 4⟩ ⟨4, 4⟩ = 0 := by
  unfold heuristic getDistance
  norm_num [opts30, sqrt4_eq, sqrt25_eq]

theorem hC4_2_4 : heuristic opts30 ⟨2, 4⟩ ⟨4, 4⟩ = 2 := by
  unfold heuristic getDistance
  norm_num [opts30, sqrt4_eq, sqrt25_eq]

theorem c4_cmp0 : (heapCompare (⟨0, 1, 1, 5, 6⟩ : PathNode) (⟨1, 0, 1, 5, 6⟩ : PathNode) < 0) = False :=
  eq_false (by
    unfold heapCompare
    show ¬ (6) - (6) < 0
    simp only [not_lt]
    linarith [sqrt2_lo, sqrt2_hi, sqrt5_lo, sqrt5_hi, sqrt8_lo, sqrt8_hi, sqrt10_lo, sqrt10_hi, sqrt13_lo, sqrt13_hi, sqrt18_lo, sqrt18_hi, sqrt20_lo, sqrt20_hi])

theorem c4_cmp1 : (heapCompare (⟨1, 1, Real.sqrt 2, Real.sqrt 18, Real.sqrt 2 + Real.sqrt 18⟩ : PathNode) (⟨1, 0, 1, 5, 6⟩ : PathNode) < 0) = True :=
  eq_true (by
    unfold heapCompare
    show (Real.sqrt 2 + Real.sqrt 18) - (6) < 0
    linarith [sqrt2_lo, sqrt2_hi, sqrt5_lo, sqrt5_hi, sqrt8_lo, sqrt8_hi, sqrt10_lo, sqrt10_hi, sqrt13_lo, sqrt13_hi, sqrt18_lo, sqrt18_hi, sqrt20_lo, sqrt20_hi])

theorem c4_cmp2 : (heapCompare (⟨2, 1, Real.sqrt 2 + 1, Real.sqrt 13, Real.sqrt 2 + 1 + Real.sqrt 13⟩ : PathNode) (⟨1, 0, 1, 5, 6⟩ : PathNode) < 0) = False :=
  eq_false (by
    unfold heapCompare
    show ¬ (Real.sqrt 2 + 1 + Real.sqrt 13) - (6) < 0
    simp only [not_lt]
    linarith [sqrt2_lo, sqrt2_hi, sqrt5_lo, sqrt5_hi, sqrt8_lo, sqrt8_hi, sqrt10_lo, sqrt10_hi, sqrt13_lo, sqrt13_hi, sqrt18_lo, sqrt18_hi, sqrt20_lo, sqrt20_hi])

theorem c4_cmp3 : (heapCompare (⟨1, 2, Real.sqrt 2 + 1, Real.sqrt 13, Real.sqrt 2 + 1 + Real.sqrt 13⟩ : PathNode) (⟨0, 1, 1, 5, 6⟩ : PathNode) < 0) = False :=
  eq_false (by
    unfold heapCompare
    show ¬ (Real.sqrt 2 + 1 + Real.sqrt 13) - (6) < 0
    simp only [not_lt]
    linarith [sqrt2_lo, sqrt2_hi, sqrt5_lo, sqrt5_hi, sqrt8_lo, sqrt8_hi, sqrt10_lo, sqrt10_hi, sqrt13_lo, sqrt13_hi, sqrt18_lo, sqrt18_hi, sqrt20_lo, sqrt20_hi])

theorem c4_cmp4 : (heapCompare (⟨2, 0, Real.sqrt 2 + Real.sqrt 2, Real.sqrt 20, Real.sqrt 2 + Real.sqrt 2 + Real.sqrt 20⟩ : PathNode) (⟨0, 1, 1, 5, 6⟩ : PathNode) < 0) = False :=
  eq_false (by
    unfold heapCompare
    show ¬ (Real.sqrt 2 + Real.sqrt 2 + Real.sqrt 20) - (6) < 0
    simp only [not_lt]
    linarith [sqrt2_lo, sqrt2_hi, sqrt5_lo, sqrt5_hi, sqrt8_lo, sqrt8_hi, sqrt10_lo, sqrt10_hi, sqrt13_lo, sqrt13_hi, sqrt18_lo, sqrt18_hi, sqrt20_lo, sqrt20_hi])

theorem c4_cmp5 : (heapCompare (⟨2, 2, Real.sqrt 2 + Real.sqrt 2, Real.sqrt 8, Real.sqrt 2 + Real.sqrt 2 + Real.sqrt 8⟩ : PathNode) (⟨2, 1, Real.sqrt 2 + 1, Real.sqrt 13, Real.sqrt 2 + 1 + Real.sqrt 13⟩ : PathNode) < 0) = True :=
  eq_true (by
    unfold heapCompare
    show (Real.sqrt 2 + Real.sqrt 2 + Real.sqrt 8) - (Real.sqrt 2 + 1 + Real.sqrt 13) < 0
    linarith [sqrt2_lo, sqrt2_hi, sqrt5_lo, sqrt5_hi, sqrt8_lo, sqrt8_hi, sqrt10_lo, sqrt10_hi, sqrt13_lo, sqrt13_hi, sqrt18_lo, sqrt18_hi, sqrt20_lo, sqrt20_hi])

theorem c4_cmp6 : (heapCompare (⟨2, 2, Real.sqrt 2 + Real.sqrt 2, Real.sqrt 8, Real.sqrt 2 + Real.sqrt 2 + Real.sqrt 8⟩ : PathNode) (⟨1, 0, 1, 5, 6⟩ : PathNode) < 0) = True :=
  eq_true (by
    unfold heapCompare
    show (Real.sqrt 2 + Real.sqrt 2 + Real.sqrt 8) - (6) < 0
    linarith [sqrt2_lo, sqrt2_hi, sqrt5_lo, sqrt5_hi, sqrt8_lo, sqrt8_hi, sqrt10_lo, sqrt10_hi, sqrt13_lo, sqrt13_hi, sqrt18_lo, sqrt18_hi, sqrt20_lo, sqrt20_hi])

theorem c4_cmp7 : (heapCompare (⟨0, 2, Real.sqrt 2 + Real.sqrt 2, Real.sqrt 20, Real.sqrt 2 + Real.sqrt 2 + Real.sqrt 20⟩ : PathNode) (⟨1, 0, 1, 5, 6⟩ : PathNode) < 0) = False :=
  eq_false (by
    unfold heapCompare
    show ¬ (Real.sqrt 2 + Real.sqrt 2 + Real.sqrt 20) - (6) < 0
    simp only [not_lt]
    linarith [sqrt2_lo, sqrt2_hi, sqrt5_lo, sqrt5_hi, sqrt8_lo, sqrt8_hi, sqrt10_lo, sqrt10_hi, sqrt13_lo, sqrt13_hi, sqrt18_lo, sqrt18_hi, sqrt20_lo, sqrt20_hi])

theorem c4_cmp8 : (heapCompare (⟨0, 1, 1, 5, 6⟩ : PathNode) (⟨0, 2, Real.sqrt 2 + Real.sqrt 2, Real.sqrt 20, Real.sqrt 2 + Real.sqrt 2 + Real.sqrt 20⟩ : PathNode) < 0) = True :=
  eq_true (by
    unfold heapCompare
    show (6) - (Real.sqrt 2 + Real.sqrt 2 + Real.sqrt 20) < 0
    linarith [sqrt2_lo, sqrt2_hi, sqrt5_lo, sqrt5_hi, sqrt8_lo, sqrt8_hi, sqrt10_lo, sqrt10_hi, sqrt13_lo, sqrt13_hi, sqrt18_lo, sqrt18_hi, sqrt20_lo, sqrt20_hi])

theorem c4_cmp9 : (heapCompare (⟨1, 0, 1, 5, 6⟩ : PathNode) (⟨0, 1, 1, 5, 6⟩ : PathNode) < 0) = False :=
  eq_false (by
    unfold heapCompare
    show ¬ (6) - (6) < 0
    simp only [not_lt]
    linarith [sqrt2_lo, sqrt2_hi, sqrt5_lo, sqrt5_hi, sqrt8_lo, sqrt8_hi, sqrt10_lo, sqrt10_hi, sqrt13_lo, sqrt13_hi, sqrt18_lo, sqrt18_hi, sqrt20_lo, sqrt20_hi])

theorem c4_cmp10 : (heapCompare (⟨1, 2, Real.sqrt 2 + 1, Real.sqrt 13, Real.sqrt 2 + 1 + Real.sqrt 13⟩ : PathNode) (⟨0, 2, Real.sqrt 2 + Real.sqrt 2, Real.sqrt 20, Real.sqrt 2 + Real.sqrt 2 + Real.sqrt 20⟩ : PathNode) < 0) = True :=
  eq_true (by
    unfold heapCompare
    show (Real.sqrt 2 + 1 + Real.sqrt 13) - (Real.sqrt 2 + Real.sqrt 2 + Real.sqrt 20) < 0
    linarith [sqrt2_lo, sqrt2_hi, sqrt5_lo, sqrt5_hi, sqrt8_lo, sqrt8_hi, sqrt10_lo, sqrt10_hi, sqrt13_lo, sqrt13_hi, sqrt18_lo, sqrt18_hi, sqrt20_lo, sqrt20_hi])

theorem c4_cmp11 : (heapCompare (⟨2, 0, Real.sqrt 2 + Real.sqrt 2, Real.sqrt 20, Real.sqrt 2 + Real.sqrt 2 + Real.sqrt 20⟩ : PathNode) (⟨1, 2, Real.sqrt 2 + 1, Real.sqrt 13, Real.sqrt 2 + 1 + Real.sqrt 13⟩ : PathNode) < 0) = False :=
  eq_false (by
    unfold heapCompare
    show ¬ (Real.sqrt 2 + Real.sqrt 2 + Real.sqrt 20) - (Real.sqrt 2 + 1 + Real.sqrt 13) < 0
    simp only [not_lt]
    linarith [sqrt2_lo, sqrt2_hi, sqrt5_lo, sqrt5_hi, sqrt8_lo, sqrt8_hi, sqrt10_lo, sqrt10_hi, sqrt13_lo, sqrt13_hi, sqrt18_lo, sqrt18_hi, sqrt20_lo, sqrt20_hi])

theorem c4_cmp12 : (heapCompare (⟨3, 2, Real.sqrt 2 + Real.sqrt 2 + 1, Real.sqrt 5, Real.sqrt 2 + Real.sqrt 2 + 1 + Real.sqrt 5⟩ : PathNode) (⟨1, 0, 1, 5, 6⟩ : PathNode) < 0) = False :=
  eq_false (by
    unfold heapCompare
    show ¬ (Real.sqrt 2 + Real.sqrt 2 + 1 + Real.sqrt 5) - (6) < 0
    simp only [not_lt]
    linarith [sqrt2_lo, sqrt2_hi, sqrt5_lo, sqrt5_hi, sqrt8_lo, sqrt8_hi, sqrt10_lo, sqrt10_hi, sqrt13_lo, sqrt13_hi, sqrt18_lo, sqrt18_hi, sqrt20_lo, sqrt20_hi])

theorem c4_cmp13 : (heapCompare (⟨2, 3, Real.sqrt 2 + Real.sqrt 2 + 1, Real.sqrt 5, Real.sqrt 2 + Real.sqrt 2 + 1 + Real.sqrt 5⟩ : PathNode) (⟨0, 2, Real.sqrt 2 + Real.sqrt 2, Real.sqrt 20, Real.sqrt 2 + Real.sqrt 2 + Real.sqrt 20⟩ : PathNode) < 0) = True :=
  eq_true (by
    unfold heapCompare
    show (Real.sqrt 2 + Real.sqrt 2 + 1 + Real.sqrt 5) - (Real.sqrt 2 + Real.sqrt 2 + Real.sqrt 20) < 0
    linarith [sqrt2_lo, sqrt2_hi, sqrt5_lo, sqrt5_hi, sqrt8_lo, sqrt8_hi, sqrt10_lo, sqrt10_hi, sqrt13_lo, sqrt13_hi, sqrt18_lo, sqrt18_hi, sqrt20_lo, sqrt20_hi])

theorem c4_cmp14 : (heapCompare (⟨2, 3, Real.sqrt 2 + Real.sqrt 2 + 1, Real.sqrt 5, Real.sqrt 2 + Real.sqrt 2 + 1 + Real.sqrt 5⟩ : PathNode) (⟨1, 2, Real.sqrt 2 + 1, Real.sqrt 13, Real.sqrt 2 + 1 + Real.sqrt 13⟩ : PathNode) < 0) = False :=
  eq_false (by
    unfold heapCompare
    show ¬ (Real.sqrt 2 + Real.sqrt 2 + 1 + Real.sqrt 5) - (Real.sqrt 2 + 1 + Real.sqrt 13) < 0
    simp only [not_lt]
    linarith [sqrt2_lo, sqrt2_hi, sqrt5_lo, sqrt5_hi, sqrt8_lo, sqrt8_hi, sqrt10_lo, sqrt10_hi, sqrt13_lo, sqrt13_hi, sqrt18_lo, sqrt18_hi, sqrt20_lo, sqrt20_hi])

theorem c4_cmp15 : (heapCompare (⟨3, 1, Real.sqrt 2 + Real.sqrt 2 + Real.sqrt 2, Real.sqrt 10, Real.sqrt 2 + Real.sqrt 2 + Real.sqrt 2 + Real.sqrt 10⟩ : PathNode) (⟨2, 3, Real.sqrt 2 + Real.sqrt 2 + 1, Real.sqrt 5, Real.sqrt 2 + Real.sqrt 2 + 1 + Real.sqrt 5⟩ : PathNode) < 0) = False :=
  eq_false (by
    unfold heapCompare
    show ¬ (Real.sqrt 2 + Real.sqrt 2 + Real.sqrt 2 + Real.sqrt 10) - (Real.sqrt 2 + Real.sqrt 2 + 1 + Real.sqrt 5) < 0
    simp only [not_lt]
    linarith [sqrt2_lo, sqrt2_hi, sqrt5_lo, sqrt5_hi, sqrt8_lo, sqrt8_hi, sqrt10_lo, sqrt10_hi, sqrt13_lo, sqrt13_hi, sqrt18_lo, sqrt18_hi, sqrt20_lo, sqrt20_hi])

theorem c4_cmp16 : (heapCompare (⟨3, 3, Real.sqrt 2 + Real.sqrt 2 + Real.sqrt 2, Real.sqrt 2, Real.sqrt 2 + Real.sqrt 2 + Real.sqrt 2 + Real.sqrt 2⟩ : PathNode) (⟨2, 0, Real.sqrt 2 + Real.sqrt 2, Real.sqrt 20, Real.sqrt 2 + Real.sqrt 2 + Real.sqrt 20⟩ : PathNode) < 0) = True :=
  eq_true (by
    unfold heapCompare
    show (Real.sqrt 2 + Real.sqrt 2 + Real.sqrt 2 + Real.sqrt 2) - (Real.sqrt 2 + Real.sqrt 2 + Real.sqrt 20) < 0
    linarith [sqrt2_lo, sqrt2_hi, sqrt5_lo, sqrt5_hi, sqrt8_lo, sqrt8_hi, sqrt10_lo, sqrt10_hi, sqrt13_lo, sqrt13_hi, sqrt18_lo, sqrt18_hi, sqrt20_lo, sqrt20_hi])

theorem c4_cmp17 : (heapCompare (⟨3, 3, Real.sqrt 2 + Real.sqrt 2 + Real.sqrt 2, Real.sqrt 2, Real.sqrt 2 + Real.sqrt 2 + Real.sqrt 2 + Real.sqrt 2⟩ : PathNode) (⟨1, 2, Real.sqrt 2 + 1, Real.sqrt 13, Real.sqrt 2 + 1 + Real.sqrt 13⟩ : PathNode) < 0) = True :=
  eq_true (by
    unfold heapCompare
    show (Real.sqrt 2 + Real.sqrt 2 + Real.sqrt 2 + Real.sqrt 2) - (Real.sqrt 2 + 1 + Real.sqrt 13) < 0
    linarith [sqrt2_lo, sqrt2_hi, sqrt5_lo, sqrt5_hi, sqrt8_lo, sqrt8_hi, sqrt10_lo, sqrt10_hi, sqrt13_lo, sqrt13_hi, sqrt18_lo, sqrt18_hi, sqrt20_lo, sqrt20_hi])

theorem c4_cmp18 : (heapCompare (⟨3, 3, Real.sqrt 2 + Real.sqrt 2 + Real.sqrt 2, Real.sqrt 2, Real.sqrt 2 + Real.sqrt 2 + Real.sqrt 2 + Real.sqrt 2⟩ : PathNode) (⟨0, 1, 1, 5, 6⟩ : PathNode) < 0) = True :=
  eq_true (by
    unfold heapCompare
    show (Real.sqrt 2 + Real.sqrt 2 + Real.sqrt 2 + Real.sqrt 2) - (6) < 0
    linarith [sqrt2_lo, sqrt2_hi, sqrt5_lo, sqrt5_hi, sqrt8_lo, sqrt8_hi, sqrt10_lo, sqrt10_hi, sqrt13_lo, sqrt13_hi, sqrt18_lo, sqrt18_hi, sqrt20_lo, sqrt20_hi])

theorem c4_cmp19 : (heapCompare (⟨1, 3, Real.sqrt 2 + Real.sqrt 2 + Real.sqrt 2, Real.sqrt 10, Real.sqrt 2 + Real.sqrt 2 + Real.sqrt 2 + Real.sqrt 10⟩ : PathNode) (⟨1, 2, Real.sqrt 2 + 1, Real.sqrt 13, Real.sqrt 2 + 1 + Real.sqrt 13⟩ : PathNode) < 0) = False :=
  eq_false (by
    unfold heapCompare
    show ¬ (Real.sqrt 2 + Real.sqrt 2 + Real.sqrt 2 + Real.sqrt 10) - (Real.sqrt 2 + 1 + Real.sqrt 13) < 0
    simp only [not_lt]
    linarith [sqrt2_lo, sqrt2_hi, sqrt5_lo, sqrt5_hi, sqrt8_lo, sqrt8_hi, sqrt10_lo, sqrt10_hi, sqrt13_lo, sqrt13_hi, sqrt18_lo, sqrt18_hi, sqrt20_lo, sqrt20_hi])

theorem c4_cmp20 : (heapCompare (⟨0, 1, 1, 5, 6⟩ : PathNode) (⟨1, 3, Real.sqrt 2 + Real.sqrt 2 + Real.sqrt 2, Real.sqrt 10, Real.sqrt 2 + Real.sqrt 2 + Real.sqrt 2 + Real.sqrt 10⟩ : PathNode) < 0) = True :=
  eq_true (by
    unfold heapCompare
    show (6) - (Real.sqrt 2 + Real.sqrt 2 + Real.sqrt 2 + Real.sqrt 10) < 0
    linarith [sqrt2_lo, sqrt2_hi, sqrt5_lo, sqrt5_hi, sqrt8_lo, sqrt8_hi, sqrt10_lo, sqrt10_hi, sqrt13_lo, sqrt13_hi, sqrt18_lo, sqrt18_hi, sqrt20_lo, sqrt20_hi])

theorem c4_cmp21 : (heapCompare (⟨2, 3, Real.sqrt 2 + Real.sqrt 2 + 1, Real.sqrt 5, Real.sqrt 2 + Real.sqrt 2 + 1 + Real.sqrt 5⟩ : PathNode) (⟨1, 3, Real.sqrt 2 + Real.sqrt 2 + Real.sqrt 2, Real.sqrt 10, Real.sqrt 2 + Real.sqrt 2 + Real.sqrt 2 + Real.sqrt 10⟩ : PathNode) < 0) = True :=
  eq_true (by
    unfold heapCompare
    show (Real.sqrt 2 + Real.sqrt 2 + 1 + Real.sqrt 5) - (Real.sqrt 2 + Real.sqrt 2 + Real.sqrt 2 + Real.sqrt 10) < 0
    linarith [sqrt2_lo, sqrt2_hi, sqrt5_lo, sqrt5_hi, sqrt8_lo, sqrt8_hi, sqrt10_lo, sqrt10_hi, sqrt13_lo, sqrt13_hi, sqrt18_lo, sqrt18_hi, sqrt20_lo, sqrt20_hi])

theorem c4_cmp22 : (heapCompare (⟨1, 2, Real.sqrt 2 + 1, Real.sqrt 13, Real.sqrt 2 + 1 + Real.sqrt 13⟩ : PathNode) (⟨2, 3, Real.sqrt 2 + Real.sqrt 2 + 1, Real.sqrt 5, Real.sqrt 2 + Real.sqrt 2 + 1 + Real.sqrt 5⟩ : PathNode) < 0) = True :=
  eq_true (by
    unfold heapCompare
    show (Real.sqrt 2 + 1 + Real.sqrt 13) - (Real.sqrt 2 + Real.sqrt 2 + 1 + Real.sqrt 5) < 0
    linarith [sqrt2_lo, sqrt2_hi, sqrt5_lo, sqrt5_hi, sqrt8_lo, sqrt8_hi, sqrt10_lo, sqrt10_hi, sqrt13_lo, sqrt13_hi, sqrt18_lo, sqrt18_hi, sqrt20_lo, sqrt20_hi])

theorem c4_cmp23 : (heapCompare (⟨2, 0, Real.sqrt 2 + Real.sqrt 2, Real.sqrt 20, Real.sqrt 2 + Real.sqrt 2 + Real.sqrt 20⟩ : PathNode) (⟨1, 3, Real.sqrt 2 + Real.sqrt 2 + Real.sqrt 2, Real.sqrt 10, Real.sqrt 2 + Real.sqrt 2 + Real.sqrt 2 + Real.sqrt 10⟩ : PathNode) < 0) = True :=
  eq_true (by
    unfold heapCompare
    show (Real.sqrt 2 + Real.sqrt 2 + Real.sqrt 20) - (Real.sqrt 2 + Real.sqrt 2 + Real.sqrt 2 + Real.sqrt 10) < 0
    linarith [sqrt2_lo, sqrt2_hi, sqrt5_lo, sqrt5_hi, sqrt8_lo, sqrt8_hi, sqrt10_lo, sqrt10_hi, sqrt13_lo, sqrt13_hi, sqrt18_lo, sqrt18_hi, sqrt20_lo, sqrt20_hi])

theorem c4_cmp24 : (heapCompare (⟨4, 3, Real.sqrt 2 + Real.sqrt 2 + Real.sqrt 2 + 1, 1, Real.sqrt 2 + Real.sqrt 2 + Real.sqrt 2 + 1 + 1⟩ : PathNode) (⟨2, 0, Real.sqrt 2 + Real.sqrt 2, Real.sqrt 20, Real.sqrt 2 + Real.sqrt 2 + Real.sqrt 20⟩ : PathNode) < 0) = True :=
  eq_true (by
    unfold heapCompare
    show (Real.sqrt 2 + Real.sqrt 2 + Real.sqrt 2 + 1 + 1) - (Real.sqrt 2 + Real.sqrt 2 + Real.sqrt 20) < 0
    linarith [sqrt2_lo, sqrt2_hi, sqrt5_lo, sqrt5_hi, sqrt8_lo, sqrt8_hi, sqrt10_lo, sqrt10_hi, sqrt13_lo, sqrt13_hi, sqrt18_lo, sqrt18_hi, sqrt20_lo, sqrt20_hi])

theorem c4_cmp25 : (heapCompare (⟨4, 3, Real.sqrt 2 + Real.sqrt 2 + Real.sqrt 2 + 1, 1, Real.sqrt 2 + Real.sqrt 2 + Real.sqrt 2 + 1 + 1⟩ : PathNode) (⟨1, 2, Real.sqrt 2 + 1, Real.sqrt 13, Real.sqrt 2 + 1 + Real.sqrt 13⟩ : PathNode) < 0) = False :=
  eq_false (by
    unfold heapCompare
    show ¬ (Real.sqrt 2 + Real.sqrt 2 + Real.sqrt 2 + 1 + 1) - (Real.sqrt 2 + 1 + Real.sqrt 13) < 0
    simp only [not_lt]
    linarith [sqrt2_lo, sqrt2_hi, sqrt5_lo, sqrt5_hi, sqrt8_lo, sqrt8_hi, sqrt10_lo, sqrt10_hi, sqrt13_lo, sqrt13_hi, sqrt18_lo, sqrt18_hi, sqrt20_lo, sqrt20_hi])

theorem c4_cmp26 : (heapCompare (⟨3, 4, Real.sqrt 2 + Real.sqrt 2 + Real.sqrt 2 + 1, 1, Real.sqrt 2 + Real.sqrt 2 + Real.sqrt 2 + 1 + 1⟩ : PathNode) (⟨2, 1, Real.sqrt 2 + 1, Real.sqrt 13, Real.sqrt 2 + 1 + Real.sqrt 13⟩ : PathNode) < 0) = False :=
  eq_false (by
    unfold heapCompare
    show ¬ (Real.sqrt 2 + Real.sqrt 2 + Real.sqrt 2 + 1 + 1) - (Real.sqrt 2 + 1 + Real.sqrt 13) < 0
    simp only [not_lt]
    linarith [sqrt2_lo, sqrt2_hi, sqrt5_lo, sqrt5_hi, sqrt8_lo, sqrt8_hi, sqrt10_lo, sqrt10_hi, sqrt13_lo, sqrt13_hi, sqrt18_lo, sqrt18_hi, sqrt20_lo, sqrt20_hi])

theorem c4_cmp27 : (heapCompare (⟨4, 2, Real.sqrt 2 + Real.sqrt 2 + Real.sqrt 2 + Real.sqrt 2, 2, Real.sqrt 2 + Real.sqrt 2 + Real.sqrt 2 + Real.sqrt 2 + 2⟩ : PathNode) (⟨2, 1, Real.sqrt 2 + 1, Real.sqrt 13, Real.sqrt 2 + 1 + Real.sqrt 13⟩ : PathNode) < 0) = False :=
  eq_false (by
    unfold heapCompare
    show ¬ (Real.sqrt 2 + Real.sqrt 2 + Real.sqrt 2 + Real.sqrt 2 + 2) - (Real.sqrt 2 + 1 + Real.sqrt 13) < 0
    simp only [not_lt]
    linarith [sqrt2_lo, sqrt2_hi, sqrt5_lo, sqrt5_hi, sqrt8_lo, sqrt8_hi, sqrt10_lo, sqrt10_hi, sqrt13_lo, sqrt13_hi, sqrt18_lo, sqrt18_hi, sqrt20_lo, sqrt20_hi])

theorem c4_cmp28 : (heapCompare (⟨4, 4, Real.sqrt 2 + Real.sqrt 2 + Real.sqrt 2 + Real.sqrt 2, 0, Real.sqrt 2 + Real.sqrt 2 + Real.sqrt 2 + Real.sqrt 2⟩ : PathNode) (⟨3, 2, Real.sqrt 2 + Real.sqrt 2 + 1, Real.sqrt 5, Real.sqrt 2 + Real.sqrt 2 + 1 + Real.sqrt 5⟩ : PathNode) < 0) = True :=
  eq_true (by
    unfold heapCompare
    show (Real.sqrt 2 + Real.sqrt 2 + Real.sqrt 2 + Real.sqrt 2) - (Real.sqrt 2 + Real.sqrt 2 + 1 + Real.sqrt 5) < 0
    linarith [sqrt2_lo, sqrt2_hi, sqrt5_lo, sqrt5_hi, sqrt8_lo, sqrt8_hi, sqrt10_lo, sqrt10_hi, sqrt13_lo, sqrt13_hi, sqrt18_lo, sqrt18_hi, sqrt20_lo, sqrt20_hi])

theorem c4_cmp29 : (heapCompare (⟨4, 4, Real.sqrt 2 + Real.sqrt 2 + Real.sqrt 2 + Real.sqrt 2, 0, Real.sqrt 2 + Real.sqrt 2 + Real.sqrt 2 + Real.sqrt 2⟩ : PathNode) (⟨1, 0, 1, 5, 6⟩ : PathNode) < 0) = True :=
  eq_true (by
    unfold heapCompare
    show (Real.sqrt 2 + Real.sqrt 2 + Real.sqrt 2 + Real.sqrt 2) - (6) < 0
    linarith [sqrt2_lo, sqrt2_hi, sqrt5_lo, sqrt5_hi, sqrt8_lo, sqrt8_hi, sqrt10_lo, sqrt10_hi, sqrt13_lo, sqrt13_hi, sqrt18_lo, sqrt18_hi, sqrt20_lo, sqrt20_hi])

theorem c4_cmp30 : (heapCompare (⟨4, 4, Real.sqrt 2 + Real.sqrt 2 + Real.sqrt 2 + Real.sqrt 2, 0, Real.sqrt 2 + Real.sqrt 2 + Real.sqrt 2 + Real.sqrt 2⟩ : PathNode) (⟨0, 1, 1, 5, 6⟩ : PathNode) < 0) = True :=
  eq_true (by
    unfold heapCompare
    show (Real.sqrt 2 + Real.sqrt 2 + Real.sqrt 2 + Real.sqrt 2) - (6) < 0
    linarith [sqrt2_lo, sqrt2_hi, sqrt5_lo, sqrt5_hi, sqrt8_lo, sqrt8_hi, sqrt10_lo, sqrt10_hi, sqrt13_lo, sqrt13_hi, sqrt18_lo, sqrt18_hi, sqrt20_lo, sqrt20_hi])

theorem c4_cmp31 : (heapCompare (⟨2, 4, Real.sqrt 2 + Real.sqrt 2 + Real.sqrt 2 + Real.sqrt 2, 2, Real.sqrt 2 + Real.sqrt 2 + Real.sqrt 2 + Real.sqrt 2 + 2⟩ : PathNode) (⟨1, 0, 1, 5, 6⟩ : PathNode) < 0) = False :=
  eq_false (by
    unfold heapCompare
    show ¬ (Real.sqrt 2 + Real.sqrt 2 + Real.sqrt 2 + Real.sqrt 2 + 2) - (6) < 0
    simp only [not_lt]
    linarith [sqrt2_lo, sqrt2_hi, sqrt5_lo, sqrt5_hi, sqrt8_lo, sqrt8_hi, sqrt10_lo, sqrt10_hi, sqrt13_lo, sqrt13_hi, sqrt18_lo, sqrt18_hi, sqrt20_lo, sqrt20_hi])

theorem c4_cmp32 : (heapCompare (⟨1, 2, Real.sqrt 2 + 1, Real.sqrt 13, Real.sqrt 2 + 1 + Real.sqrt 13⟩ : PathNode) (⟨2, 4, Real.sqrt 2 + Real.sqrt 2 + Real.sqrt 2 + Real.sqrt 2, 2, Real.sqrt 2 + Real.sqrt 2 + Real.sqrt 2 + Real.sqrt 2 + 2⟩ : PathNode) < 0) = True :=
  eq_true (by
    unfold heapCompare
    show (Real.sqrt 2 + 1 + Real.sqrt 13) - (Real.sqrt 2 + Real.sqrt 2 + Real.sqrt 2 + Real.sqrt 2 + 2) < 0
    linarith [sqrt2_lo, sqrt2_hi, sqrt5_lo, sqrt5_hi, sqrt8_lo, sqrt8_hi, sqrt10_lo, sqrt10_hi, sqrt13_lo, sqrt13_hi, sqrt18_lo, sqrt18_hi, sqrt20_lo, sqrt20_hi])

theorem c4_cmp33 : (heapCompare (⟨0, 1, 1, 5, 6⟩ : PathNode) (⟨1, 2, Real.sqrt 2 + 1, Real.sqrt 13, Real.sqrt 2 + 1 + Real.sqrt 13⟩ : PathNode) < 0) = True :=
  eq_true (by
    unfold heapCompare
    show (6) - (Real.sqrt 2 + 1 + Real.sqrt 13) < 0
    linarith [sqrt2_lo, sqrt2_hi, sqrt5_lo, sqrt5_hi, sqrt8_lo, sqrt8_hi, sqrt10_lo, sqrt10_hi, sqrt13_lo, sqrt13_hi, sqrt18_lo, sqrt18_hi, sqrt20_lo, sqrt20_hi])

theorem c4_cmp34 : (heapCompare (⟨2, 1, Real.sqrt 2 + 1, Real.sqrt 13, Real.sqrt 2 + 1 + Real.sqrt 13⟩ : PathNode) (⟨2, 4, Real.sqrt 2 + Real.sqrt 2 + Real.sqrt 2 + Real.sqrt 2, 2, Real.sqrt 2 + Real.sqrt 2 + Real.sqrt 2 + Real.sqrt 2 + 2⟩ : PathNode) < 0) = True :=
  eq_true (by
    unfold heapCompare
    show (Real.sqrt 2 + 1 + Real.sqrt 13) - (Real.sqrt 2 + Real.sqrt 2 + Real.sqrt 2 + Real.sqrt 2 + 2) < 0
    linarith [sqrt2_lo, sqrt2_hi, sqrt5_lo, sqrt5_hi, sqrt8_lo, sqrt8_hi, sqrt10_lo, sqrt10_hi, sqrt13_lo, sqrt13_hi, sqrt18_lo, sqrt18_hi, sqrt20_lo, sqrt20_hi])

theorem c4_cmp35 : (heapCompare (⟨1, 0, 1, 5, 6⟩ : PathNode) (⟨2, 1, Real.sqrt 2 + 1, Real.sqrt 13, Real.sqrt 2 + 1 + Real.sqrt 13⟩ : PathNode) < 0) = True :=
  eq_true (by
    unfold heapCompare
    show (6) - (Real.sqrt 2 + 1 + Real.sqrt 13) < 0
    linarith [sqrt2_lo, sqrt2_hi, sqrt5_lo, sqrt5_hi, sqrt8_lo, sqrt8_hi, sqrt10_lo, sqrt10_hi, sqrt13_lo, sqrt13_hi, sqrt18_lo, sqrt18_hi, sqrt20_lo, sqrt20_hi])

theorem c4_cmp36 : (heapCompare (⟨3, 2, Real.sqrt 2 + Real.sqrt 2 + 1, Real.sqrt 5, Real.sqrt 2 + Real.sqrt 2 + 1 + Real.sqrt 5⟩ : PathNode) (⟨2, 4, Real.sqrt 2 + Real.sqrt 2 + Real.sqrt 2 + Real.sqrt 2, 2, Real.sqrt 2 + Real.sqrt 2 + Real.sqrt 2 + Real.sqrt 2 + 2⟩ : PathNode) < 0) = True :=
  eq_true (by
    unfold heapCompare
    show (Real.sqrt 2 + Real.sqrt 2 + 1 + Real.sqrt 5) - (Real.sqrt 2 + Real.sqrt 2 + Real.sqrt 2 + Real.sqrt 2 + 2) < 0
    linarith [sqrt2_lo, sqrt2_hi, sqrt5_lo, sqrt5_hi, sqrt8_lo, sqrt8_hi, sqrt10_lo, sqrt10_hi, sqrt13_lo, sqrt13_hi, sqrt18_lo, sqrt18_hi, sqrt20_lo, sqrt20_hi])

theorem c4_ge0 : ((1 : ℝ) ≤ Real.sqrt 2 + 1) = True :=
  eq_true (by linarith [sqrt2_lo, sqrt2_hi, sqrt5_lo, sqrt5_hi, sqrt8_lo, sqrt8_hi, sqrt10_lo, sqrt10_hi, sqrt13_lo, sqrt13_hi, sqrt18_lo, sqrt18_hi, sqrt20_lo, sqrt20_hi])

theorem c4_ge1 : ((Real.sqrt 2 + 1 : ℝ) ≤ Real.sqrt 2 + Real.sqrt 2 + 1) = True :=
  eq_true (by linarith [sqrt2_lo, sqrt2_hi, sqrt5_lo, sqrt5_hi, sqrt8_lo, sqrt8_hi, sqrt10_lo, sqrt10_hi, sqrt13_lo, sqrt13_hi, sqrt18_lo, sqrt18_hi, sqrt20_lo, sqrt20_hi])

theorem c4_ge2 : ((Real.sqrt 2 + Real.sqrt 2 + 1 : ℝ) ≤ Real.sqrt 2 + Real.sqrt 2 + Real.sqrt 2 + 1) = True :=
  eq_true (by linarith [sqrt2_lo, sqrt2_hi, sqrt5_lo, sqrt5_hi, sqrt8_lo, sqrt8_hi, sqrt10_lo, sqrt10_hi, sqrt13_lo, sqrt13_hi, sqrt18_lo, sqrt18_hi, sqrt20_lo, sqrt20_hi])


/-- `heapPop` on a nonempty literal heap, with the replacement heap left
as an unevaluated term (the goal-reaching step discards it). -/
theorem heapPop_cons (top : PathNode) (tail : List PathNode) :
    heapPop (top :: tail) =
      some (top,
        if 0 < ((top :: tail).dropLast).length then
          bubbleDown (((top :: tail).dropLast).set 0
            ((top :: tail).getLast?.getD default)) 0
        else (top :: tail).dropLast) := rfl

/-- One unfolding of the search loop at successor fuel. -/
theorem findPathLoop_succ (hd : HeightData) (opts : PathfindingOptions)
    (goal : Point) (fuel : ℕ) (st : SearchState) (nodesExplored : ℕ) :
    findPathLoop hd opts goal (fuel + 1) st nodesExplored =
      match heapPop st.heap with
      | none => ⟨[], 0, false, nodesExplored⟩
      | some (current, heap1) =>
        let cIdx := idxOf hd.width current.x current.y
        let st1 : SearchState :=
          { st with
            heap := heap1
            inOpen := Function.update st.inOpen cIdx false
            closed := Function.update st.closed cIdx true }
        if current.x = goal.x ∧ current.y = goal.y then
          ⟨reconAux st1.cameFrom hd.width (hd.width * hd.height + 1) cIdx [],
            current.g, true, nodesExplored + 1⟩
        else
          findPathLoop hd opts goal fuel
            ((dirs opts.diagonalMovement).foldl
              (processNeighbor hd opts goal current cIdx) st1)
            (nodesExplored + 1) := rfl

set_option maxHeartbeats 4000000 in
/-- Full evaluation of the A* run on `flat5` from `(0,0)` to `(4,4)`,
one frontier pop per proof step: the search closes the five diagonal
cells in order and reconstructs the diagonal path. -/
theorem run_c4 : findPath flat5 opts30 ⟨0, 0⟩ ⟨4, 4⟩ =
    ⟨[⟨0, 0⟩, ⟨1, 1⟩, ⟨2, 2⟩, ⟨3, 3⟩, ⟨4, 4⟩], Real.sqrt 2 + Real.sqrt 2 + Real.sqrt 2 + Real.sqrt 2, true, 5⟩ := by
  unfold findPath
  rw [if_neg (by simp [isValidPoint, flat5])]
  simp only [heapPush_nil, show flat5.width = 5 from rfl, show flat5.height = 5 from rfl,
    show (5 * 5 + 1 : ℕ) = 26 from rfl, hC4_0_0]
  rw [show findPathLoop flat5 opts30 (⟨4, 4⟩ : Point) 26 =
    findPathLoop flat5 opts30 ⟨4, 4⟩ (25 + 1) from rfl]
  rw [findPathLoop_succ]
  norm_num [processNeighbor, dirs, heapPop, heapPush, bubbleUp, bubbleDown, bubbleDownAux, heapPush_nil, heapPop_single, bubbleUp_zero, List.dropLast, List.getLast?_cons_cons, List.getLast?_singleton, Function.update, geOpt, idxOf, reconAux, show flat5.width = 5 from rfl, show flat5.height = 5 from rfl, show opts30.diagonalMovement = true from rfl, toNat_two, toNat_three, toNat_four, toNat_5, toNat_6, toNat_7, toNat_8, toNat_9, toNat_10, toNat_11, toNat_12, toNat_13, toNat_14, toNat_15, toNat_16, toNat_17, toNat_18, toNat_19, toNat_20, toNat_21, toNat_22, toNat_23, toNat_24, mcC4_0_0_1_0, mcC4_0_0_0_1, mcC4_0_0_1_1, mcC4_1_1_1_0, mcC4_1_1_2_1, mcC4_1_1_1_2, mcC4_1_1_0_1, mcC4_1_1_2_0, mcC4_1_1_2_2, mcC4_1_1_0_2, mcC4_2_2_2_1, mcC4_2_2_3_2, mcC4_2_2_2_3, mcC4_2_2_1_2, mcC4_2_2_3_1, mcC4_2_2_3_3, mcC4_2_2_1_3, mcC4_3_3_3_2, mcC4_3_3_4_3, mcC4_3_3_3_4, mcC4_3_3_2_3, mcC4_3_3_4_2, mcC4_3_3_4_4, mcC4_3_3_2_4, hC4_0_0, hC4_1_0, hC4_0_1, hC4_1_1, hC4_2_1, hC4_1_2, hC4_2_0, hC4_2_2, hC4_0_2, hC4_3_2, hC4_2_3, hC4_3_1, hC4_3_3, hC4_1_3, hC4_4_3, hC4_3_4, hC4_4_2, hC4_4_4, hC4_2_4, c4_cmp0, c4_cmp1, c4_cmp2, c4_cmp3, c4_cmp4, c4_cmp5, c4_cmp6, c4_cmp7, c4_cmp8, c4_cmp9, c4_cmp10, c4_cmp11, c4_cmp12, c4_cmp13, c4_cmp14, c4_cmp15, c4_cmp16, c4_cmp17, c4_cmp18, c4_cmp19, c4_cmp20, c4_cmp21, c4_cmp22, c4_cmp23, c4_cmp24, c4_cmp25, c4_cmp26, c4_cmp27, c4_cmp28, c4_cmp29, c4_cmp30, c4_cmp31, c4_cmp32, c4_cmp33, c4_cmp34, c4_cmp35, c4_cmp36, c4_ge0, c4_ge1, c4_ge2]
  rw [show findPathLoop flat5 opts30 (⟨4, 4⟩ : Point) 25 =
    findPathLoop flat5 opts30 ⟨4, 4⟩ (24 + 1) from rfl]
  rw [findPathLoop_succ]
  norm_num [processNeighbor, dirs, heapPop, heapPush, bubbleUp, bubbleDown, bubbleDownAux, heapPush_nil, heapPop_single, bubbleUp_zero, List.dropLast, List.getLast?_cons_cons, List.getLast?_singleton, Function.update, geOpt, idxOf, reconAux, show flat5.width = 5 from rfl, show flat5.height = 5 from rfl, show opts30.diagonalMovement = true from rfl, toNat_two, toNat_three, toNat_four, toNat_5, toNat_6, toNat_7, toNat_8, toNat_9, toNat_10, toNat_11, toNat_12, toNat_13, toNat_14, toNat_15, toNat_16, toNat_17, toNat_18, toNat_19, toNat_20, toNat_21, toNat_22, toNat_23, toNat_24, mcC4_0_0_1_0, mcC4_0_0_0_1, mcC4_0_0_1_1, mcC4_1_1_1_0, mcC4_1_1_2_1, mcC4_1_1_1_2, mcC4_1_1_0_1, mcC4_1_1_2_0, mcC4_1_1_2_2, mcC4_1_1_0_2, mcC4_2_2_2_1, mcC4_2_2_3_2, mcC4_2_2_2_3, mcC4_2_2_1_2, mcC4_2_2_3_1, mcC4_2_2_3_3, mcC4_2_2_1_3, mcC4_3_3_3_2, mcC4_3_3_4_3, mcC4_3_3_3_4, mcC4_3_3_2_3, mcC4_3_3_4_2, mcC4_3_3_4_4, mcC4_3_3_2_4, hC4_0_0, hC4_1_0, hC4_0_1, hC4_1_1, hC4_2_1, hC4_1_2, hC4_2_0, hC4_2_2, hC4_0_2, hC4_3_2, hC4_2_3, hC4_3_1, hC4_3_3, hC4_1_3, hC4_4_3, hC4_3_4, hC4_4_2, hC4_4_4, hC4_2_4, c4_cmp0, c4_cmp1, c4_cmp2, c4_cmp3, c4_cmp4, c4_cmp5, c4_cmp6, c4_cmp7, c4_cmp8, c4_cmp9, c4_cmp10, c4_cmp11, c4_cmp12, c4_cmp13, c4_cmp14, c4_cmp15, c4_cmp16, c4_cmp17, c4_cmp18, c4_cmp19, c4_cmp20, c4_cmp21, c4_cmp22, c4_cmp23, c4_cmp24, c4_cmp25, c4_cmp26, c4_cmp27, c4_cmp28, c4_cmp29, c4_cmp30, c4_cmp31, c4_cmp32, c4_cmp33, c4_cmp34, c4_cmp35, c4_cmp36, c4_ge0, c4_ge1, c4_ge2]
  rw [show findPathLoop flat5 opts30 (⟨4, 4⟩ : Point) 24 =
    findPathLoop flat5 opts30 ⟨4, 4⟩ (23 + 1) from rfl]
  rw [findPathLoop_succ]
  norm_num [processNeighbor, dirs, heapPop, heapPush, bubbleUp, bubbleDown, bubbleDownAux, heapPush_nil, heapPop_single, bubbleUp_zero, List.dropLast, List.getLast?_cons_cons, List.getLast?_singleton, Function.update, geOpt, idxOf, reconAux, show flat5.width = 5 from rfl, show flat5.height = 5 from rfl, show opts30.diagonalMovement = true from rfl, toNat_two, toNat_three, toNat_four, toNat_5, toNat_6, toNat_7, toNat_8, toNat_9, toNat_10, toNat_11, toNat_12, toNat_13, toNat_14, toNat_15, toNat_16, toNat_17, toNat_18, toNat_19, toNat_20, toNat_21, toNat_22, toNat_23, toNat_24, mcC4_0_0_1_0, mcC4_0_0_0_1, mcC4_0_0_1_1, mcC4_1_1_1_0, mcC4_1_1_2_1, mcC4_1_1_1_2, mcC4_1_1_0_1, mcC4_1_1_2_0, mcC4_1_1_2_2, mcC4_1_1_0_2, mcC4_2_2_2_1, mcC4_2_2_3_2, mcC4_2_2_2_3, mcC4_2_2_1_2, mcC4_2_2_3_1, mcC4_2_2_3_3, mcC4_2_2_1_3, mcC4_3_3_3_2, mcC4_3_3_4_3, mcC4_3_3_3_4, mcC4_3_3_2_3, mcC4_3_3_4_2, mcC4_3_3_4_4, mcC4_3_3_2_4, hC4_0_0, hC4_1_0, hC4_0_1, hC4_1_1, hC4_2_1, hC4_1_2, hC4_2_0, hC4_2_2, hC4_0_2, hC4_3_2, hC4_2_3, hC4_3_1, hC4_3_3, hC4_1_3, hC4_4_3, hC4_3_4, hC4_4_2, hC4_4_4, hC4_2_4, c4_cmp0, c4_cmp1, c4_cmp2, c4_cmp3, c4_cmp4, c4_cmp5, c4_cmp6, c4_cmp7, c4_cmp8, c4_cmp9, c4_cmp10, c4_cmp11, c4_cmp12, c4_cmp13, c4_cmp14, c4_cmp15, c4_cmp16, c4_cmp17, c4_cmp18, c4_cmp19, c4_cmp20, c4_cmp21, c4_cmp22, c4_cmp23, c4_cmp24, c4_cmp25, c4_cmp26, c4_cmp27, c4_cmp28, c4_cmp29, c4_cmp30, c4_cmp31, c4_cmp32, c4_cmp33, c4_cmp34, c4_cmp35, c4_cmp36, c4_ge0, c4_ge1, c4_ge2]
  rw [show findPathLoop flat5 opts30 (⟨4, 4⟩ : Point) 23 =
    findPathLoop flat5 opts30 ⟨4, 4⟩ (22 + 1) from rfl]
  rw [findPathLoop_succ]
  norm_num [processNeighbor, dirs, heapPop, heapPush, bubbleUp, bubbleDown, bubbleDownAux, heapPush_nil, heapPop_single, bubbleUp_zero, List.dropLast, List.getLast?_cons_cons, List.getLast?_singleton, Function.update, geOpt, idxOf, reconAux, show flat5.width = 5 from rfl, show flat5.height = 5 from rfl, show opts30.diagonalMovement = true from rfl, toNat_two, toNat_three, toNat_four, toNat_5, toNat_6, toNat_7, toNat_8, toNat_9, toNat_10, toNat_11, toNat_12, toNat_13, toNat_14, toNat_15, toNat_16, toNat_17, toNat_18, toNat_19, toNat_20, toNat_21, toNat_22, toNat_23, toNat_24, mcC4_0_0_1_0, mcC4_0_0_0_1, mcC4_0_0_1_1, mcC4_1_1_1_0, mcC4_1_1_2_1, mcC4_1_1_1_2, mcC4_1_1_0_1, mcC4_1_1_2_0, mcC4_1_1_2_2, mcC4_1_1_0_2, mcC4_2_2_2_1, mcC4_2_2_3_2, mcC4_2_2_2_3, mcC4_2_2_1_2, mcC4_2_2_3_1, mcC4_2_2_3_3, mcC4_2_2_1_3, mcC4_3_3_3_2, mcC4_3_3_4_3, mcC4_3_3_3_4, mcC4_3_3_2_3, mcC4_3_3_4_2, mcC4_3_3_4_4, mcC4_3_3_2_4, hC4_0_0, hC4_1_0, hC4_0_1, hC4_1_1, hC4_2_1, hC4_1_2, hC4_2_0, hC4_2_2, hC4_0_2, hC4_3_2, hC4_2_3, hC4_3_1, hC4_3_3, hC4_1_3, hC4_4_3, hC4_3_4, hC4_4_2, hC4_4_4, hC4_2_4, c4_cmp0, c4_cmp1, c4_cmp2, c4_cmp3, c4_cmp4, c4_cmp5, c4_cmp6, c4_cmp7, c4_cmp8, c4_cmp9, c4_cmp10, c4_cmp11, c4_cmp12, c4_cmp13, c4_cmp14, c4_cmp15, c4_cmp16, c4_cmp17, c4_cmp18, c4_cmp19, c4_cmp20, c4_cmp21, c4_cmp22, c4_cmp23, c4_cmp24, c4_cmp25, c4_cmp26, c4_cmp27, c4_cmp28, c4_cmp29, c4_cmp30, c4_cmp31, c4_cmp32, c4_cmp33, c4_cmp34, c4_cmp35, c4_cmp36, c4_ge0, c4_ge1, c4_ge2]
  rw [show findPathLoop flat5 opts30 (⟨4, 4⟩ : Point) 22 =
    findPathLoop flat5 opts30 ⟨4, 4⟩ (21 + 1) from rfl]
  rw [findPathLoop_succ]
  dsimp only []
  rw [heapPop_cons]
  dsimp only []
  rw [if_pos (⟨rfl, rfl⟩ : (4 : ℤ) = 4 ∧ (4 : ℤ) = 4)]
  norm_num [reconAux, Function.update, idxOf, show flat5.width = 5 from rfl, show flat5.height = 5 from rfl, toNat_two, toNat_three, toNat_four, toNat_5, toNat_6, toNat_7, toNat_8, toNat_9, toNat_10, toNat_11, toNat_12, toNat_13, toNat_14, toNat_15, toNat_16, toNat_17, toNat_18, toNat_19, toNat_20, toNat_21, toNat_22, toNat_23, toNat_24]

/-- C4: on the flat 5-by-5 grid with the stated options, `findPath`
from `(0,0)` to `(4,4)` succeeds with the five-cell main-diagonal path
and total cost `4*sqrt 2`, as the spec claims. -/
theorem c4_flat_diagonal :
    (findPath flat5 opts30 ⟨0, 0⟩ ⟨4, 4⟩).success = true ∧
    (findPath flat5 opts30 ⟨0, 0⟩ ⟨4, 4⟩).path =
      [⟨0, 0⟩, ⟨1, 1⟩, ⟨2, 2⟩, ⟨3, 3⟩, ⟨4, 4⟩] ∧
    (findPath flat5 opts30 ⟨0, 0⟩ ⟨4, 4⟩).cost = 4 * Real.sqrt 2 := by
  refine ⟨by rw [run_c4], by rw [run_c4], ?_⟩
  rw [run_c4]
  show Real.sqrt 2 + Real.sqrt 2 + Real.sqrt 2 + Real.sqrt 2 = 4 * Real.sqrt 2
  ring

end
